import Mathlib

/-!
# Browser scripts of `rival_project/app/static/js`

A shallow embedding of the three page scripts `main.js`, `charts.js` and
`dashboard.js`.  The scripts only talk to the browser: they look elements up,
read and write attributes and class lists, register click listeners, call the
chart library and `alert`.  The page is therefore modelled as an explicit
state (`World`), every DOM call used by the scripts is a function on that
state, and every listener body is a function `World → Outcome`, where an
`Outcome` is the state reached together with the exception thrown, if any.

Elements are identified by their position in document (tree pre-order) order.
A click on an element (`click`) runs, in registration order, every click
listener registered on that element and then those registered on each of its
ancestors, as the browser does when the event bubbles.  The chart library and
`alert` are external: a call to them is recorded in the state, and what the
library answers is a parameter (`Env`).
-/

namespace RivalProject

/-! ## The page -/

/-- One element of the page.  `id` and `classes` are the `id` attribute and
the token set of the `class` attribute; `attrs` holds every other attribute;
`parent` is the position of the parent element (`none` for an element without
a parent element). -/
structure Element where
  tag : String
  id : Option String
  classes : List String
  attrs : List (String × String)
  parent : Option Nat
deriving DecidableEq, Repr

/-- The elements of the page, in document order. -/
abbrev Document := List Element

/-- Exceptions the scripts can run into. -/
inductive JsError where
  | typeError (msg : String)
  | external (msg : String)
deriving DecidableEq, Repr

/-- The data set record of a chart configuration (`datasets[i]`). -/
structure Dataset where
  label : String
  backgroundColor : String
  borderColor : String
  borderWidth : Option Nat
  data : List Nat
  fill : Option Bool
deriving DecidableEq, Repr

/-- The `data` record of a chart configuration. -/
structure ChartData where
  labels : List String
  datasets : List Dataset
deriving DecidableEq, Repr

/-- The `options` record: `responsive` and `scales.y.beginAtZero`. -/
structure ChartOptions where
  responsive : Bool
  scalesYBeginAtZero : Bool
deriving DecidableEq, Repr

/-- The second argument of `new Chart(ctx, config)`. -/
structure ChartConfig where
  type : String
  data : ChartData
  options : ChartOptions
deriving DecidableEq, Repr

/-- One invocation of the chart constructor: the drawing context it was given
(`none` is JavaScript `null`) and the configuration. -/
structure ChartCall where
  ctx : Option Nat
  config : ChartConfig
deriving DecidableEq, Repr

/-- The bodies of the listeners the scripts register.  A listener closes over
the elements it was created for. -/
inductive Handler where
  | navbarToggle (toggleBtn navMenu : Nat)
  | submenuToggle (btn : Nat)
  | refreshAlert
deriving DecidableEq, Repr

/-- One `addEventListener` registration. -/
structure Listener where
  target : Nat
  event : String
  handler : Handler
deriving DecidableEq, Repr

/-- Everything the scripts can observe or change. -/
structure World where
  doc : Document
  listeners : List Listener
  charts : List ChartCall
  alerts : List String
deriving DecidableEq, Repr

/-- Result of running a piece of script: the state reached and the exception
that ended the run, if one was thrown. -/
structure Outcome where
  world : World
  error : Option JsError
deriving DecidableEq, Repr

/-- The external collaborators: what `canvas.getContext('2d')` returns for a
canvas (`none` is `null`) and whether the chart constructor throws. -/
structure Env where
  getContext2d : Nat → Option Nat
  chartCtor : Option Nat → ChartConfig → Option JsError

/-! ## Attribute lists -/

/-- Value of attribute `n`, if present. -/
def attrGet (n : String) : List (String × String) → Option String
  | [] => none
  | (k, v) :: r => if k = n then some v else attrGet n r

/-- Attribute list without attribute `n`. -/
def attrRemove (n : String) : List (String × String) → List (String × String)
  | [] => []
  | (k, v) :: r => if k = n then attrRemove n r else (k, v) :: attrRemove n r

/-- Attribute list with `n` set to `v`: the value is replaced in place when the
attribute exists and appended otherwise. -/
def attrSet (n v : String) : List (String × String) → List (String × String)
  | [] => [(n, v)]
  | (k, w) :: r => if k = n then (k, v) :: r else (k, w) :: attrSet n v r

/-! ## DOM calls used by the scripts -/

/-- Apply `f` to the element at position `i`. -/
def updateAt (f : Element → Element) : Nat → Document → Document
  | _, [] => []
  | 0, e :: r => f e :: r
  | i + 1, e :: r => e :: updateAt f i r

/-- `document.getElementById(id)`: the first element in document order whose
id is `id`. -/
def getElementById (doc : Document) (id : String) : Option Nat :=
  (List.range doc.length).find? (fun i => doc[i]?.bind (fun e => e.id) == some id)

/-- Does element `i` carry class `cls`? -/
def hasClass (doc : Document) (i : Nat) (cls : String) : Bool :=
  match doc[i]? with
  | some e => decide (cls ∈ e.classes)
  | none => false

/-- `document.querySelectorAll('.' + cls)`: every element with the class, in
document order. -/
def querySelectorAll (doc : Document) (cls : String) : List Nat :=
  (List.range doc.length).filter (fun i => hasClass doc i cls)

/-- `el.parentElement`. -/
def parentElement (doc : Document) (i : Nat) : Option Nat :=
  doc[i]?.bind (fun e => e.parent)

/-- Is `a` reached from `i` by following `parentElement` at least once and at
most `fuel` times? -/
def isDescendant (doc : Document) : Nat → Nat → Nat → Bool
  | 0, _, _ => false
  | fuel + 1, i, a =>
    match parentElement doc i with
    | none => false
    | some p => p == a || isDescendant doc fuel p a

/-- `root.querySelector('.' + cls)`: the first descendant of `root` in document
order that carries the class. -/
def querySelector (doc : Document) (root : Nat) (cls : String) : Option Nat :=
  (List.range doc.length).find?
    (fun j => isDescendant doc doc.length j root && hasClass doc j cls)

/-- `el.getAttribute(n)` (`none` is `null`, also for a missing element). -/
def getAttribute (doc : Document) (i : Nat) (n : String) : Option String :=
  doc[i]?.bind (fun e => attrGet n e.attrs)

/-- `el.hasAttribute(n)`. -/
def hasAttribute (doc : Document) (i : Nat) (n : String) : Bool :=
  (getAttribute doc i n).isSome

/-- `el.setAttribute(n, v)`. -/
def setAttribute (doc : Document) (i : Nat) (n v : String) : Document :=
  updateAt (fun e => { e with attrs := attrSet n v e.attrs }) i doc

/-- `el.removeAttribute(n)`. -/
def removeAttribute (doc : Document) (i : Nat) (n : String) : Document :=
  updateAt (fun e => { e with attrs := attrRemove n e.attrs }) i doc

/-- `el.classList.contains(cls)`. -/
def classListContains (doc : Document) (i : Nat) (cls : String) : Bool :=
  hasClass doc i cls

/-- `el.classList.toggle(cls)`: removes the token when present and returns
`false`, adds it when absent and returns `true`. -/
def classListToggle (doc : Document) (i : Nat) (cls : String) : Document × Bool :=
  if classListContains doc i cls then
    (updateAt (fun e => { e with classes := e.classes.filter (fun c => c ≠ cls) }) i doc, false)
  else
    (updateAt (fun e => { e with classes := e.classes ++ [cls] }) i doc, true)

/-- JavaScript `String(b)` for a boolean. -/
def jsString (b : Bool) : String :=
  if b then "true" else "false"

/-- `target.addEventListener('click', handler)`. -/
def addEventListener (w : World) (target : Nat) (h : Handler) : World :=
  { w with listeners := w.listeners ++ [⟨target, "click", h⟩] }

/-! ## `main.js` -/

/-- Body of the listener of lines 8-11: toggle class `open` on the menu and
mirror the result in `aria-expanded` of the button. -/
def navbarClick (toggleBtn navMenu : Nat) (w : World) : Outcome :=
  let r := classListToggle w.doc navMenu "open"
  let isOpen := r.2
  ⟨{ w with doc := setAttribute r.1 toggleBtn "aria-expanded" (jsString isOpen) }, none⟩

/-- The panel a submenu button resolves to:
`btn.parentElement?.querySelector('.submenu')`. -/
def submenuPanel (doc : Document) (btn : Nat) : Option Nat :=
  (parentElement doc btn).bind (fun p => querySelector doc p "submenu")

/-- Body of the listener of lines 16-22. -/
def submenuClick (btn : Nat) (w : World) : Outcome :=
  match submenuPanel w.doc btn with
  | none => ⟨w, none⟩
  | some next =>
    let hidden := hasAttribute w.doc next "hidden"
    let doc1 :=
      if hidden then removeAttribute w.doc next "hidden"
      else setAttribute w.doc next "hidden" ""
    ⟨{ w with doc := setAttribute doc1 btn "aria-expanded" (jsString hidden) }, none⟩

/-- The `DOMContentLoaded` listener of `main.js`. -/
def mainOnReady (w : World) : Outcome :=
  let toggleBtn := getElementById w.doc "menu-toggle"
  let navMenu := getElementById w.doc "nav-menu"
  let w1 :=
    match toggleBtn, navMenu with
    | some t, some m => addEventListener w t (Handler.navbarToggle t m)
    | _, _ => w
  let w2 := (querySelectorAll w1.doc "submenu-toggle").foldl
    (fun acc btn => addEventListener acc btn (Handler.submenuToggle btn)) w1
  ⟨w2, none⟩

/-- State after `n` successive runs of `step`. -/
def clicks (step : World → Outcome) : Nat → World → World
  | 0, w => w
  | n + 1, w => (step (clicks step n w)).world

/-! ## `charts.js` and `dashboard.js` -/

/-- Month labels shared by both scripts. -/
def monthLabels : List String :=
  ["January", "February", "March", "April", "May", "June", "July"]

/-- Sample values shared by both scripts. -/
def sampleData : List Nat := [65, 59, 80, 81, 56, 55, 40]

/-- The configuration literal of `charts.js`, lines 5-25. -/
def chartsConfig : ChartConfig :=
  { type := "line"
    data :=
      { labels := monthLabels
        datasets :=
          [{ label := "My First dataset"
             backgroundColor := "rgba(75, 192, 192, 0.2)"
             borderColor := "rgba(75, 192, 192, 1)"
             borderWidth := none
             data := sampleData
             fill := some true }] }
    options := { responsive := true, scalesYBeginAtZero := true } }

/-- The `data` literal of `dashboard.js`, lines 5-14. -/
def dashboardData : ChartData :=
  { labels := monthLabels
    datasets :=
      [{ label := "User Growth"
         backgroundColor := "rgba(75, 192, 192, 0.2)"
         borderColor := "rgba(75, 192, 192, 1)"
         borderWidth := some 1
         data := sampleData
         fill := none }] }

/-- The configuration literal of `dashboard.js`, lines 17-28. -/
def dashboardConfig : ChartConfig :=
  { type := "line"
    data := dashboardData
    options := { responsive := true, scalesYBeginAtZero := true } }

/-- The exception of `null.getContext`. -/
def nullGetContext : JsError :=
  JsError.typeError "cannot read properties of null (reading getContext)"

/-- `el.getContext('2d')` on the result of `getElementById`: reading a property
of `null` throws, calling a property that is not a function (any element that
is not a canvas) throws, a canvas answers with what the browser gives. -/
def getContext (env : Env) (doc : Document) (el : Option Nat) : Except JsError (Option Nat) :=
  match el with
  | none => Except.error nullGetContext
  | some i =>
    match doc[i]? with
    | none => Except.error nullGetContext
    | some e =>
      if e.tag = "canvas" then Except.ok (env.getContext2d i)
      else Except.error (JsError.typeError "getContext is not a function")

/-- `new Chart(ctx, config)`: the call is made, then the library returns or
throws. -/
def newChart (env : Env) (w : World) (ctx : Option Nat) (cfg : ChartConfig) : Outcome :=
  ⟨{ w with charts := w.charts ++ [⟨ctx, cfg⟩] }, env.chartCtor ctx cfg⟩

/-- The `DOMContentLoaded` listener of `charts.js`. -/
def chartsOnReady (env : Env) (w : World) : Outcome :=
  match getContext env w.doc (getElementById w.doc "myChart") with
  | Except.error e => ⟨w, some e⟩
  | Except.ok ctx => newChart env w ctx chartsConfig

/-- The `DOMContentLoaded` listener of `dashboard.js`. -/
def dashboardOnReady (env : Env) (w : World) : Outcome :=
  match getContext env w.doc (getElementById w.doc "userGrowthChart") with
  | Except.error e => ⟨w, some e⟩
  | Except.ok ctx =>
    let r := newChart env w ctx dashboardConfig
    match r.error with
    | some e => ⟨r.world, some e⟩
    | none =>
      match getElementById r.world.doc "refreshData" with
      | some refreshButton =>
        ⟨addEventListener r.world refreshButton Handler.refreshAlert, none⟩
      | none => ⟨r.world, none⟩

/-- Body of the listener of `dashboard.js`, lines 33-37. -/
def refreshClick (w : World) : Outcome :=
  ⟨{ w with alerts := w.alerts ++ ["Data refreshed!"] }, none⟩

/-- Run the body of a registered listener. -/
def runHandler : Handler → World → Outcome
  | Handler.navbarToggle t m => navbarClick t m
  | Handler.submenuToggle b => submenuClick b
  | Handler.refreshAlert => refreshClick

/-! ## Click dispatch -/

/-- The click listeners registered on element `el`, in registration order. -/
def listenersOn (ls : List Listener) (el : Nat) : List Handler :=
  (ls.filter (fun l => decide (l.target = el) && decide (l.event = "click"))).map
    (fun l => l.handler)

/-- The chain `el.parentElement`, `el.parentElement.parentElement`, ... (at
most `fuel` elements). -/
def ancestors (doc : Document) : Nat → Nat → List Nat
  | 0, _ => []
  | fuel + 1, i =>
    match parentElement doc i with
    | none => []
    | some p => p :: ancestors doc fuel p

/-- The elements a click on `target` reaches: the target, then its ancestors
from the innermost outwards. -/
def eventPath (doc : Document) (target : Nat) : List Nat :=
  target :: ancestors doc doc.length target

/-- The listeners of the elements of a path, element by element. -/
def handlersAlong (ls : List Listener) : List Nat → List Handler
  | [] => []
  | el :: rest => listenersOn ls el ++ handlersAlong ls rest

/-- The listeners a click on `target` runs, in the order they run. -/
def clickHandlers (w : World) (target : Nat) : List Handler :=
  handlersAlong w.listeners (eventPath w.doc target)

/-- Run listener bodies one after the other; an exception of a listener is
reported and the remaining listeners still run. -/
def runHandlers : List Handler → World → Outcome
  | [], w => ⟨w, none⟩
  | h :: hs, w =>
    match (runHandler h w).error with
    | some e => ⟨(runHandlers hs (runHandler h w).world).world, some e⟩
    | none => runHandlers hs (runHandler h w).world

/-- A click on element `target`. -/
def click (target : Nat) (w : World) : Outcome :=
  runHandlers (clickHandlers w target) w

/-- The page is a tree listed in document order: every parent stands before
its children. -/
def wellFormed (doc : Document) : Bool :=
  (List.range doc.length).all fun i =>
    match parentElement doc i with
    | none => true
    | some p => decide (p < i)

/-- The navbar listener `main.js` registers on element `el`: one when `el` is
`menu-toggle` and `nav-menu` exists. -/
def wiredNavbar (doc : Document) (el : Nat) : List Handler :=
  match getElementById doc "menu-toggle", getElementById doc "nav-menu" with
  | some t, some m => if t = el then [Handler.navbarToggle t m] else []
  | _, _ => []

/-- The submenu listener `main.js` registers on element `el`: one when `el` has
class `submenu-toggle`. -/
def wiredSubmenu (doc : Document) (el : Nat) : List Handler :=
  if hasClass doc el "submenu-toggle" then [Handler.submenuToggle el] else []

/-- The listeners `main.js` registers on element `el` of a page, in
registration order. -/
def wired (doc : Document) (el : Nat) : List Handler :=
  wiredNavbar doc el ++ wiredSubmenu doc el

/-- Two pages with the same size, the same parents and, `open` apart, the same
classes. -/
def SameShape (d d2 : Document) : Prop :=
  d2.length = d.length ∧ (∀ j, parentElement d2 j = parentElement d j) ∧
    ∀ j c, c ≠ "open" → hasClass d2 j c = hasClass d j c

/-- The attribute `m` of element `j` is one the listener body may write on
page `doc`. -/
def writes (doc : Document) : Handler → Nat → String → Prop
  | Handler.navbarToggle t _, j, m => j = t ∧ m = "aria-expanded"
  | Handler.submenuToggle a, j, m =>
    (j = a ∧ m = "aria-expanded" ∧ submenuPanel doc a ≠ none) ∨
      (submenuPanel doc a = some j ∧ m = "hidden")
  | Handler.refreshAlert, _, _ => False

/-- A state of the page `w0` after `main.js` ran on it and listeners ran: the
listeners are those `main.js` registered and the page kept its shape. -/
def Reached (w0 w : World) : Prop :=
  w.listeners = (mainOnReady w0).world.listeners ∧ SameShape w0.doc w.doc

/-! ## Updates that only write attributes -/

/-- An update that leaves tag, id, class list and parent of every element as
they are (an attribute write). -/
def AttrOnly (f : Element → Element) : Prop :=
  ∀ e, (f e).tag = e.tag ∧ (f e).id = e.id ∧ (f e).classes = e.classes ∧ (f e).parent = e.parent

/-! ## Example pages -/

/-- A sidebar entry: `<li><button class="submenu-toggle"></button>
<ul class="submenu" hidden></ul></li>`. -/
def sidebarPage : Document :=
  [ { tag := "li", id := none, classes := [], attrs := [], parent := none },
    { tag := "button", id := none, classes := ["submenu-toggle"], attrs := [], parent := some 0 },
    { tag := "ul", id := none, classes := ["submenu"], attrs := [("hidden", "")],
      parent := some 0 } ]

/-- The sidebar entry before any script ran. -/
def sidebarWorld : World := ⟨sidebarPage, [], [], []⟩

/-- Two buttons and their two panels as children of one element:
`<div><button class="submenu-toggle"></button><ul class="submenu" hidden></ul>
<button class="submenu-toggle"></button><ul class="submenu" hidden></ul></div>`. -/
def sharedParentPage : Document :=
  [ { tag := "div", id := none, classes := [], attrs := [], parent := none },
    { tag := "button", id := none, classes := ["submenu-toggle"],
      attrs := [("aria-expanded", "false")], parent := some 0 },
    { tag := "ul", id := none, classes := ["submenu"], attrs := [("hidden", "")],
      parent := some 0 },
    { tag := "button", id := none, classes := ["submenu-toggle"],
      attrs := [("aria-expanded", "false")], parent := some 0 },
    { tag := "ul", id := none, classes := ["submenu"], attrs := [("hidden", "")],
      parent := some 0 } ]

/-- The page with the shared parent before any script ran. -/
def sharedParentWorld : World := ⟨sharedParentPage, [], [], []⟩

/-- A submenu button that has no panel next to it:
`<li><button class="submenu-toggle" aria-expanded="false"></button></li>`. -/
def lonelyButtonPage : Document :=
  [ { tag := "li", id := none, classes := [], attrs := [], parent := none },
    { tag := "button", id := none, classes := ["submenu-toggle"],
      attrs := [("aria-expanded", "false")], parent := some 0 } ]

/-- The page with the lonely button before any script ran. -/
def lonelyButtonWorld : World := ⟨lonelyButtonPage, [], [], []⟩

/-- A page with the mobile menu: `<nav><button id="menu-toggle"></button>
<ul id="nav-menu" class="menu"></ul></nav>`. -/
def navbarPage : Document :=
  [ { tag := "nav", id := none, classes := [], attrs := [], parent := none },
    { tag := "button", id := some "menu-toggle", classes := [], attrs := [], parent := some 0 },
    { tag := "ul", id := some "nav-menu", classes := ["menu"], attrs := [], parent := some 0 } ]

/-- The page with the mobile menu before any script ran. -/
def navbarWorld : World := ⟨navbarPage, [], [], []⟩

/-- A submenu control inside another one, both next to the one panel:
`<ul><li class="submenu-toggle"><button class="submenu-toggle"></button>
<ul class="submenu" hidden></ul></li></ul>`. -/
def nestedControlPage : Document :=
  [ { tag := "ul", id := none, classes := [], attrs := [], parent := none },
    { tag := "li", id := none, classes := ["submenu-toggle"], attrs := [], parent := some 0 },
    { tag := "button", id := none, classes := ["submenu-toggle"], attrs := [],
      parent := some 1 },
    { tag := "ul", id := none, classes := ["submenu"], attrs := [("hidden", "")],
      parent := some 1 } ]

/-- The page with the nested control before any script ran. -/
def nestedControlWorld : World := ⟨nestedControlPage, [], [], []⟩

/-- A submenu control inside another one, each with a panel of its own:
`<div><div class="submenu" hidden></div><div class="submenu-toggle">
<button class="submenu-toggle"></button><ul class="submenu" hidden></ul></div>
</div>`. -/
def nestedIndependentPage : Document :=
  [ { tag := "div", id := none, classes := [], attrs := [], parent := none },
    { tag := "div", id := none, classes := ["submenu"], attrs := [("hidden", "")],
      parent := some 0 },
    { tag := "div", id := none, classes := ["submenu-toggle"], attrs := [], parent := some 0 },
    { tag := "button", id := none, classes := ["submenu-toggle"],
      attrs := [("aria-expanded", "false")], parent := some 2 },
    { tag := "ul", id := none, classes := ["submenu"], attrs := [("hidden", "")],
      parent := some 2 } ]

/-- The page with the two independent nested controls before any script ran. -/
def nestedIndependentWorld : World := ⟨nestedIndependentPage, [], [], []⟩

/-- A menu button that is also a submenu control, its menu also a panel:
`<nav><button id="menu-toggle" class="submenu-toggle"></button>
<ul id="nav-menu" class="submenu"></ul></nav>`. -/
def doubleRolePage : Document :=
  [ { tag := "nav", id := none, classes := [], attrs := [], parent := none },
    { tag := "button", id := some "menu-toggle", classes := ["submenu-toggle"], attrs := [],
      parent := some 0 },
    { tag := "ul", id := some "nav-menu", classes := ["submenu"], attrs := [],
      parent := some 0 } ]

/-- The page with the double role before any script ran. -/
def doubleRoleWorld : World := ⟨doubleRolePage, [], [], []⟩

/-- A menu button that is also a submenu control without panel:
`<nav><button id="menu-toggle" class="submenu-toggle" aria-expanded="false">
</button><ul id="nav-menu"></ul></nav>`. -/
def menuButtonPage : Document :=
  [ { tag := "nav", id := none, classes := [], attrs := [], parent := none },
    { tag := "button", id := some "menu-toggle", classes := ["submenu-toggle"],
      attrs := [("aria-expanded", "false")], parent := some 0 },
    { tag := "ul", id := some "nav-menu", classes := [], attrs := [], parent := some 0 } ]

/-- The page with the menu button before any script ran. -/
def menuButtonWorld : World := ⟨menuButtonPage, [], [], []⟩

/-- A dashboard page whose canvas is missing: `<main><button id="refreshData">
</button></main>`. -/
def noCanvasPage : Document :=
  [ { tag := "main", id := none, classes := [], attrs := [], parent := none },
    { tag := "button", id := some "refreshData", classes := [], attrs := [], parent := some 0 } ]

/-- The page without canvas before any script ran. -/
def noCanvasWorld : World := ⟨noCanvasPage, [], [], []⟩

/-- A page with both canvases and the refresh button. -/
def dashboardPage : Document :=
  [ { tag := "main", id := none, classes := [], attrs := [], parent := none },
    { tag := "canvas", id := some "myChart", classes := [], attrs := [], parent := some 0 },
    { tag := "canvas", id := some "userGrowthChart", classes := [], attrs := [],
      parent := some 0 },
    { tag := "button", id := some "refreshData", classes := [], attrs := [], parent := some 0 } ]

/-- The dashboard page before any script ran. -/
def dashboardWorld : World := ⟨dashboardPage, [], [], []⟩

/-- A browser in which every canvas hands out a context and the chart library
draws without complaint. -/
def okEnv : Env := ⟨fun i => some i, fun _ _ => none⟩

/-! ## Basic facts about attribute lists -/

theorem attrGet_attrSet_same (n v : String) (l : List (String × String)) :
    attrGet n (attrSet n v l) = some v := by
  induction l with
  | nil => simp [attrSet, attrGet]
  | cons kv r ih =>
    obtain ⟨k, w⟩ := kv
    by_cases h : k = n
    · simp [attrSet, attrGet, h]
    · simp [attrSet, attrGet, h, ih]

theorem attrGet_attrSet_other (m n v : String) (l : List (String × String)) (hne : m ≠ n) :
    attrGet m (attrSet n v l) = attrGet m l := by
  have hne2 : n ≠ m := fun h => hne h.symm
  induction l with
  | nil => simp [attrSet, attrGet, hne2]
  | cons kv r ih =>
    obtain ⟨k, w⟩ := kv
    by_cases h : k = n
    · subst h
      simp [attrSet, attrGet, hne2]
    · by_cases hm : k = m
      · subst hm
        simp [attrSet, attrGet, h]
      · simp [attrSet, attrGet, h, hm, ih]

theorem attrGet_attrRemove_same (n : String) (l : List (String × String)) :
    attrGet n (attrRemove n l) = none := by
  induction l with
  | nil => simp [attrRemove, attrGet]
  | cons kv r ih =>
    obtain ⟨k, w⟩ := kv
    by_cases h : k = n
    · simp [attrRemove, h, ih]
    · simp [attrRemove, attrGet, h, ih]

theorem attrGet_attrRemove_other (m n : String) (l : List (String × String)) (hne : m ≠ n) :
    attrGet m (attrRemove n l) = attrGet m l := by
  have hne2 : n ≠ m := fun h => hne h.symm
  induction l with
  | nil => simp [attrRemove, attrGet]
  | cons kv r ih =>
    obtain ⟨k, w⟩ := kv
    by_cases h : k = n
    · subst h
      simp [attrRemove, attrGet, hne2, ih]
    · by_cases hm : k = m
      · subst hm
        simp [attrRemove, attrGet, h]
      · simp [attrRemove, attrGet, h, hm, ih]

/-! ## Basic facts about element updates -/

theorem length_updateAt (f : Element → Element) (i : Nat) (doc : Document) :
    (updateAt f i doc).length = doc.length := by
  induction doc generalizing i with
  | nil => cases i <;> simp [updateAt]
  | cons e r ih => cases i <;> simp [updateAt, ih]

theorem getElem?_updateAt_same (f : Element → Element) (i : Nat) (doc : Document) :
    (updateAt f i doc)[i]? = doc[i]?.map f := by
  induction doc generalizing i with
  | nil => cases i <;> simp [updateAt]
  | cons e r ih => cases i <;> simp [updateAt, ih]

theorem getElem?_updateAt_other (f : Element → Element) (i j : Nat) (doc : Document)
    (hne : j ≠ i) : (updateAt f i doc)[j]? = doc[j]? := by
  induction doc generalizing i j with
  | nil => cases i <;> simp [updateAt]
  | cons e r ih =>
    cases i with
    | zero =>
      cases j with
      | zero => exact absurd rfl hne
      | succ j => simp [updateAt]
    | succ i =>
      cases j with
      | zero => simp [updateAt]
      | succ j =>
        have : j ≠ i := fun h => hne (by rw [h])
        simp [updateAt, ih i j this]

theorem attrOnly_set (n v : String) :
    AttrOnly (fun e => { e with attrs := attrSet n v e.attrs }) := by
  intro e; simp

theorem attrOnly_remove (n : String) :
    AttrOnly (fun e => { e with attrs := attrRemove n e.attrs }) := by
  intro e; simp

theorem parentElement_updateAt (f : Element → Element) (hf : AttrOnly f) (i j : Nat)
    (doc : Document) : parentElement (updateAt f i doc) j = parentElement doc j := by
  unfold parentElement
  by_cases h : j = i
  · subst h
    rw [getElem?_updateAt_same]
    cases doc[j]? with
    | none => rfl
    | some e => simp [(hf e).2.2.2]
  · rw [getElem?_updateAt_other f i j doc h]

theorem hasClass_updateAt (f : Element → Element) (hf : AttrOnly f) (i j : Nat)
    (doc : Document) (cls : String) : hasClass (updateAt f i doc) j cls = hasClass doc j cls := by
  unfold hasClass
  by_cases h : j = i
  · subst h
    rw [getElem?_updateAt_same]
    cases doc[j]? with
    | none => rfl
    | some e => simp [(hf e).2.2.1]
  · rw [getElem?_updateAt_other f i j doc h]

/-! ## Reading attributes after a write -/

theorem getAttribute_setAttribute_same (doc : Document) (i : Nat) (n v : String)
    (hi : i < doc.length) : getAttribute (setAttribute doc i n v) i n = some v := by
  unfold getAttribute setAttribute
  rw [getElem?_updateAt_same, List.getElem?_eq_getElem hi]
  simp [attrGet_attrSet_same]

theorem getAttribute_setAttribute_other (doc : Document) (i j : Nat) (n m v : String)
    (hne : j ≠ i ∨ m ≠ n) : getAttribute (setAttribute doc i n v) j m = getAttribute doc j m := by
  unfold getAttribute setAttribute
  by_cases h : j = i
  · subst h
    have hm : m ≠ n := by
      rcases hne with h1 | h1
      · exact absurd rfl h1
      · exact h1
    rw [getElem?_updateAt_same]
    cases doc[j]? with
    | none => rfl
    | some e => simp [attrGet_attrSet_other m n v e.attrs hm]
  · rw [getElem?_updateAt_other _ i j doc h]

theorem getAttribute_removeAttribute_same (doc : Document) (i : Nat) (n : String) :
    getAttribute (removeAttribute doc i n) i n = none := by
  unfold getAttribute removeAttribute
  rw [getElem?_updateAt_same]
  cases doc[i]? with
  | none => rfl
  | some e => simp [attrGet_attrRemove_same]

theorem getAttribute_removeAttribute_other (doc : Document) (i j : Nat) (n m : String)
    (hne : j ≠ i ∨ m ≠ n) : getAttribute (removeAttribute doc i n) j m = getAttribute doc j m := by
  unfold getAttribute removeAttribute
  by_cases h : j = i
  · subst h
    have hm : m ≠ n := by
      rcases hne with h1 | h1
      · exact absurd rfl h1
      · exact h1
    rw [getElem?_updateAt_same]
    cases doc[j]? with
    | none => rfl
    | some e => simp [attrGet_attrRemove_other m n e.attrs hm]
  · rw [getElem?_updateAt_other _ i j doc h]

theorem length_setAttribute (doc : Document) (i : Nat) (n v : String) :
    (setAttribute doc i n v).length = doc.length :=
  length_updateAt _ i doc

theorem length_removeAttribute (doc : Document) (i : Nat) (n : String) :
    (removeAttribute doc i n).length = doc.length :=
  length_updateAt _ i doc

/-! ## Lookups answer with elements of the page -/

theorem parentElement_lt (doc : Document) (i p : Nat) (h : parentElement doc i = some p) :
    i < doc.length := by
  unfold parentElement at h
  by_contra hge
  rw [List.getElem?_eq_none (Nat.le_of_not_lt hge)] at h
  simp at h

theorem querySelector_lt (doc : Document) (root : Nat) (cls : String) (j : Nat)
    (h : querySelector doc root cls = some j) : j < doc.length := by
  unfold querySelector at h
  have := List.mem_of_find?_eq_some h
  exact List.mem_range.mp this

theorem getElementById_lt (doc : Document) (id : String) (j : Nat)
    (h : getElementById doc id = some j) : j < doc.length := by
  unfold getElementById at h
  have := List.mem_of_find?_eq_some h
  exact List.mem_range.mp this

theorem submenuPanel_lt (doc : Document) (btn p : Nat) (h : submenuPanel doc btn = some p) :
    btn < doc.length ∧ p < doc.length := by
  unfold submenuPanel at h
  cases hp : parentElement doc btn with
  | none => rw [hp] at h; simp at h
  | some q =>
    rw [hp] at h
    exact ⟨parentElement_lt doc btn q hp, querySelector_lt doc q "submenu" p (by simpa using h)⟩

/-! ## The submenu listener, one run -/

theorem submenuClick_of_panel (w : World) (btn p : Nat)
    (hp : submenuPanel w.doc btn = some p) :
    submenuClick btn w =
      ⟨{ w with
          doc := setAttribute
            (if hasAttribute w.doc p "hidden" then removeAttribute w.doc p "hidden"
             else setAttribute w.doc p "hidden" "")
            btn "aria-expanded" (jsString (hasAttribute w.doc p "hidden")) }, none⟩ := by
  simp [submenuClick, hp]

theorem submenuClick_of_no_panel (w : World) (btn : Nat)
    (hp : submenuPanel w.doc btn = none) : submenuClick btn w = ⟨w, none⟩ := by
  simp [submenuClick, hp]

theorem submenuClick_error (w : World) (btn : Nat) : (submenuClick btn w).error = none := by
  cases hp : submenuPanel w.doc btn with
  | none => rw [submenuClick_of_no_panel w btn hp]
  | some p => rw [submenuClick_of_panel w btn p hp]

theorem hidden_ne_aria : "hidden" ≠ "aria-expanded" := by decide

/-- The `hidden` attribute of the panel after one run. -/
theorem getAttribute_hidden_submenuClick (w : World) (btn p : Nat)
    (hp : submenuPanel w.doc btn = some p) :
    getAttribute (submenuClick btn w).world.doc p "hidden" =
      if hasAttribute w.doc p "hidden" then none else some "" := by
  rw [submenuClick_of_panel w btn p hp]
  simp only
  rw [getAttribute_setAttribute_other _ btn p "aria-expanded" "hidden" _ (Or.inr hidden_ne_aria)]
  cases hh : hasAttribute w.doc p "hidden" with
  | true => simp [getAttribute_removeAttribute_same]
  | false =>
    simp [getAttribute_setAttribute_same w.doc p "hidden" "" (submenuPanel_lt w.doc btn p hp).2]

/-- The `aria-expanded` attribute of the button after one run. -/
theorem getAttribute_aria_submenuClick (w : World) (btn p : Nat)
    (hp : submenuPanel w.doc btn = some p) :
    getAttribute (submenuClick btn w).world.doc btn "aria-expanded" =
      some (jsString (hasAttribute w.doc p "hidden")) := by
  rw [submenuClick_of_panel w btn p hp]
  simp only
  apply getAttribute_setAttribute_same
  have hb := (submenuPanel_lt w.doc btn p hp).1
  split
  · rw [length_removeAttribute]; exact hb
  · rw [length_setAttribute]; exact hb

/-- Every attribute other than `hidden` of the panel and `aria-expanded` of the
button reads the same after one run. -/
theorem getAttribute_frame_submenuClick (w : World) (btn j : Nat) (m : String)
    (h1 : submenuPanel w.doc btn ≠ some j ∨ m ≠ "hidden")
    (h2 : j ≠ btn ∨ m ≠ "aria-expanded") :
    getAttribute (submenuClick btn w).world.doc j m = getAttribute w.doc j m := by
  cases hp : submenuPanel w.doc btn with
  | none => rw [submenuClick_of_no_panel w btn hp]
  | some p =>
    rw [submenuClick_of_panel w btn p hp]
    simp only
    rw [getAttribute_setAttribute_other _ btn j "aria-expanded" m _ h2]
    have h3 : j ≠ p ∨ m ≠ "hidden" := by
      rcases h1 with h | h
      · left
        intro hj
        apply h
        rw [hp, hj]
      · exact Or.inr h
    split
    · exact getAttribute_removeAttribute_other _ p j "hidden" m h3
    · exact getAttribute_setAttribute_other _ p j "hidden" m _ h3

/-! ## Class list writes -/

theorem classListToggle_snd (doc : Document) (i : Nat) (cls : String) :
    (classListToggle doc i cls).2 = !classListContains doc i cls := by
  unfold classListToggle
  split <;> simp_all

theorem length_classListToggle (doc : Document) (i : Nat) (cls : String) :
    (classListToggle doc i cls).1.length = doc.length := by
  unfold classListToggle
  split <;> simp [length_updateAt]

theorem classListContains_classListToggle (doc : Document) (i : Nat) (cls : String)
    (hi : i < doc.length) :
    classListContains (classListToggle doc i cls).1 i cls = !classListContains doc i cls := by
  unfold classListToggle
  split
  · next h =>
    rw [h]
    simp only [classListContains, hasClass]
    rw [getElem?_updateAt_same, List.getElem?_eq_getElem hi]
    simp
  · next h =>
    have h2 : classListContains doc i cls = false := by simpa using h
    rw [h2]
    simp only [classListContains, hasClass]
    rw [getElem?_updateAt_same, List.getElem?_eq_getElem hi]
    simp

/-! ## Pages of the same shape -/

theorem sameShape_refl (d : Document) : SameShape d d :=
  ⟨rfl, fun _ => rfl, fun _ _ _ => rfl⟩

theorem sameShape_trans {a b c : Document} (h1 : SameShape a b) (h2 : SameShape b c) :
    SameShape a c :=
  ⟨h2.1.trans h1.1, fun j => (h2.2.1 j).trans (h1.2.1 j),
    fun j k hk => (h2.2.2 j k hk).trans (h1.2.2 j k hk)⟩

theorem sameShape_updateAt (f : Element → Element) (hf : AttrOnly f) (i : Nat)
    (doc : Document) : SameShape doc (updateAt f i doc) :=
  ⟨length_updateAt f i doc, fun j => parentElement_updateAt f hf i j doc,
    fun j c _ => hasClass_updateAt f hf i j doc c⟩

theorem sameShape_setAttribute (doc : Document) (i : Nat) (n v : String) :
    SameShape doc (setAttribute doc i n v) :=
  sameShape_updateAt _ (attrOnly_set n v) i doc

theorem sameShape_removeAttribute (doc : Document) (i : Nat) (n : String) :
    SameShape doc (removeAttribute doc i n) :=
  sameShape_updateAt _ (attrOnly_remove n) i doc

theorem parentElement_updateAt_of_parent (f : Element → Element)
    (hf : ∀ e, (f e).parent = e.parent) (i j : Nat) (doc : Document) :
    parentElement (updateAt f i doc) j = parentElement doc j := by
  unfold parentElement
  by_cases h : j = i
  · subst h
    rw [getElem?_updateAt_same]
    cases doc[j]? with
    | none => rfl
    | some e => simp [hf e]
  · rw [getElem?_updateAt_other f i j doc h]

theorem getAttribute_updateAt_of_attrs (f : Element → Element)
    (hf : ∀ e, (f e).attrs = e.attrs) (i j : Nat) (doc : Document) (n : String) :
    getAttribute (updateAt f i doc) j n = getAttribute doc j n := by
  unfold getAttribute
  by_cases h : j = i
  · subst h
    rw [getElem?_updateAt_same]
    cases doc[j]? with
    | none => rfl
    | some e => simp [hf e]
  · rw [getElem?_updateAt_other f i j doc h]

theorem getAttribute_classListToggle (doc : Document) (i : Nat) (cls : String) (j : Nat)
    (n : String) : getAttribute (classListToggle doc i cls).1 j n = getAttribute doc j n := by
  unfold classListToggle
  split
  · refine getAttribute_updateAt_of_attrs _ ?_ i j doc n
    intro e; rfl
  · refine getAttribute_updateAt_of_attrs _ ?_ i j doc n
    intro e; rfl

theorem parentElement_classListToggle (doc : Document) (i : Nat) (cls : String) (j : Nat) :
    parentElement (classListToggle doc i cls).1 j = parentElement doc j := by
  unfold classListToggle
  split
  · refine parentElement_updateAt_of_parent _ ?_ i j doc
    intro e; rfl
  · refine parentElement_updateAt_of_parent _ ?_ i j doc
    intro e; rfl

theorem hasClass_classListToggle_other (doc : Document) (i : Nat) (cls : String) (j : Nat)
    (c : String) (h : j ≠ i ∨ c ≠ cls) :
    hasClass (classListToggle doc i cls).1 j c = hasClass doc j c := by
  unfold classListToggle
  by_cases hj : j = i
  · subst hj
    have hc : c ≠ cls := by
      rcases h with h | h
      · exact absurd rfl h
      · exact h
    split
    · simp only [hasClass]
      rw [getElem?_updateAt_same]
      cases doc[j]? with
      | none => rfl
      | some e => simp [List.mem_filter, hc]
    · simp only [hasClass]
      rw [getElem?_updateAt_same]
      cases doc[j]? with
      | none => rfl
      | some e => simp [hc]
  · split
    · simp only [hasClass]
      rw [getElem?_updateAt_other _ i j doc hj]
    · simp only [hasClass]
      rw [getElem?_updateAt_other _ i j doc hj]

theorem sameShape_classListToggle (doc : Document) (i : Nat) :
    SameShape doc (classListToggle doc i "open").1 :=
  ⟨length_classListToggle doc i "open", parentElement_classListToggle doc i "open",
    fun j c hc => hasClass_classListToggle_other doc i "open" j c (Or.inr hc)⟩

theorem isDescendant_congr (d d2 : Document)
    (h : ∀ j, parentElement d2 j = parentElement d j) (fuel j a : Nat) :
    isDescendant d2 fuel j a = isDescendant d fuel j a := by
  induction fuel generalizing j with
  | zero => rfl
  | succ fuel ih =>
    simp only [isDescendant, h]
    cases parentElement d j with
    | none => rfl
    | some p => simp [ih p]

theorem submenu_ne_open : "submenu" ≠ "open" := by decide

theorem submenuPanel_congr {d d2 : Document} (h : SameShape d d2) (b : Nat) :
    submenuPanel d2 b = submenuPanel d b := by
  unfold submenuPanel
  rw [h.2.1]
  cases parentElement d b with
  | none => rfl
  | some q =>
    simp only [Option.some_bind, querySelector]
    rw [h.1]
    congr 1
    funext j
    rw [isDescendant_congr d d2 h.2.1, h.2.2 j "submenu" submenu_ne_open]

theorem ancestors_congr (d d2 : Document)
    (h : ∀ j, parentElement d2 j = parentElement d j) (fuel i : Nat) :
    ancestors d2 fuel i = ancestors d fuel i := by
  induction fuel generalizing i with
  | zero => rfl
  | succ fuel ih =>
    simp only [ancestors, h]
    cases parentElement d i with
    | none => rfl
    | some p => simp [ih p]

theorem eventPath_congr {d d2 : Document} (h : SameShape d d2) (x : Nat) :
    eventPath d2 x = eventPath d x := by
  unfold eventPath
  rw [h.1, ancestors_congr d d2 h.2.1]

theorem writes_congr {d d2 : Document} (h : SameShape d d2) (hd : Handler) (j : Nat)
    (m : String) : writes d2 hd j m ↔ writes d hd j m := by
  cases hd with
  | navbarToggle t n => exact Iff.rfl
  | submenuToggle a =>
    simp only [writes]
    rw [submenuPanel_congr h a]
  | refreshAlert => exact Iff.rfl

/-! ## One listener body -/

theorem runHandler_error (h : Handler) (w : World) : (runHandler h w).error = none := by
  cases h with
  | navbarToggle t m => rfl
  | submenuToggle a => exact submenuClick_error w a
  | refreshAlert => rfl

theorem submenuClick_sameShape (w : World) (btn : Nat) :
    SameShape w.doc (submenuClick btn w).world.doc := by
  cases hp : submenuPanel w.doc btn with
  | none =>
    rw [submenuClick_of_no_panel w btn hp]
    exact sameShape_refl _
  | some p =>
    rw [submenuClick_of_panel w btn p hp]
    simp only
    refine sameShape_trans ?_ (sameShape_setAttribute _ _ _ _)
    split
    · exact sameShape_removeAttribute _ _ _
    · exact sameShape_setAttribute _ _ _ _

theorem submenuClick_rest (w : World) (btn : Nat) :
    (submenuClick btn w).world.listeners = w.listeners ∧
    (submenuClick btn w).world.charts = w.charts ∧
    (submenuClick btn w).world.alerts = w.alerts := by
  cases hp : submenuPanel w.doc btn with
  | none =>
    rw [submenuClick_of_no_panel w btn hp]
    exact ⟨rfl, rfl, rfl⟩
  | some p =>
    rw [submenuClick_of_panel w btn p hp]
    exact ⟨rfl, rfl, rfl⟩

theorem runHandler_sameShape (h : Handler) (w : World) :
    SameShape w.doc (runHandler h w).world.doc := by
  cases h with
  | navbarToggle t m =>
    exact sameShape_trans (sameShape_classListToggle w.doc m) (sameShape_setAttribute _ _ _ _)
  | submenuToggle a => exact submenuClick_sameShape w a
  | refreshAlert => exact sameShape_refl _

theorem runHandler_listeners (h : Handler) (w : World) :
    (runHandler h w).world.listeners = w.listeners := by
  cases h with
  | navbarToggle t m => rfl
  | submenuToggle a => exact (submenuClick_rest w a).1
  | refreshAlert => rfl

theorem runHandler_charts (h : Handler) (w : World) :
    (runHandler h w).world.charts = w.charts := by
  cases h with
  | navbarToggle t m => rfl
  | submenuToggle a => exact (submenuClick_rest w a).2.1
  | refreshAlert => rfl

theorem runHandler_alerts (h : Handler) (w : World) (hr : h ≠ Handler.refreshAlert) :
    (runHandler h w).world.alerts = w.alerts := by
  cases h with
  | navbarToggle t m => rfl
  | submenuToggle a => exact (submenuClick_rest w a).2.2
  | refreshAlert => exact absurd rfl hr

theorem runHandler_frame_attr (h : Handler) (w : World) (j : Nat) (m : String)
    (hw : ¬ writes w.doc h j m) :
    getAttribute (runHandler h w).world.doc j m = getAttribute w.doc j m := by
  cases h with
  | navbarToggle t n =>
    simp only [writes, not_and_or] at hw
    simp only [runHandler, navbarClick]
    rw [getAttribute_setAttribute_other _ t j "aria-expanded" m _ hw,
      getAttribute_classListToggle]
  | submenuToggle a =>
    simp only [runHandler]
    cases hp : submenuPanel w.doc a with
    | none => rw [submenuClick_of_no_panel w a hp]
    | some p =>
      simp only [writes, hp, not_or, not_and_or] at hw
      apply getAttribute_frame_submenuClick
      · rw [hp]
        rcases hw.2 with h | h
        · exact Or.inl h
        · exact Or.inr h
      · rcases hw.1 with h | h | h
        · exact Or.inl h
        · exact Or.inr h
        · exact absurd (by simp) h
  | refreshAlert => rfl

theorem runHandler_frame_class (h : Handler) (w : World) (j : Nat) (c : String)
    (hc : ∀ t, h = Handler.navbarToggle t j → c ≠ "open") :
    hasClass (runHandler h w).world.doc j c = hasClass w.doc j c := by
  cases h with
  | navbarToggle t n =>
    simp only [runHandler, navbarClick, setAttribute]
    rw [hasClass_updateAt _ (attrOnly_set _ _)]
    apply hasClass_classListToggle_other
    by_cases hj : j = n
    · subst hj
      exact Or.inr (hc t rfl)
    · exact Or.inl hj
  | submenuToggle a =>
    by_cases hco : c = "open"
    · subst hco
      simp only [runHandler]
      cases hp : submenuPanel w.doc a with
      | none => rw [submenuClick_of_no_panel w a hp]
      | some p =>
        rw [submenuClick_of_panel w a p hp]
        simp only [setAttribute, removeAttribute]
        rw [hasClass_updateAt _ (attrOnly_set _ _)]
        split
        · rw [hasClass_updateAt _ (attrOnly_remove _)]
        · rw [hasClass_updateAt _ (attrOnly_set _ _)]
    · exact (runHandler_sameShape (Handler.submenuToggle a) w).2.2 j c hco
  | refreshAlert => rfl

/-! ## What the page-ready listener of `main.js` registers -/

theorem foldl_addEventListener (l : List Nat) (w : World) :
    l.foldl (fun acc btn => addEventListener acc btn (Handler.submenuToggle btn)) w =
      { w with
        listeners := w.listeners ++
          l.map (fun btn => (⟨btn, "click", Handler.submenuToggle btn⟩ : Listener)) } := by
  induction l generalizing w with
  | nil => simp
  | cons b r ih =>
    simp only [List.foldl_cons, List.map_cons]
    rw [ih]
    simp [addEventListener]

theorem mainOnReady_without_navbar (w : World)
    (h : getElementById w.doc "menu-toggle" = none ∨ getElementById w.doc "nav-menu" = none) :
    mainOnReady w =
      ⟨{ w with
          listeners := w.listeners ++
            (querySelectorAll w.doc "submenu-toggle").map
              (fun btn => (⟨btn, "click", Handler.submenuToggle btn⟩ : Listener)) }, none⟩ := by
  unfold mainOnReady
  simp only
  rw [foldl_addEventListener]
  rcases h with h | h
  · rw [h]
  · rw [h]
    cases getElementById w.doc "menu-toggle" <;> rfl

theorem mainOnReady_with_navbar (w : World) (t m : Nat)
    (ht : getElementById w.doc "menu-toggle" = some t)
    (hm : getElementById w.doc "nav-menu" = some m) :
    mainOnReady w =
      ⟨{ w with
          listeners := w.listeners ++ [⟨t, "click", Handler.navbarToggle t m⟩] ++
            (querySelectorAll w.doc "submenu-toggle").map
              (fun btn => (⟨btn, "click", Handler.submenuToggle btn⟩ : Listener)) }, none⟩ := by
  unfold mainOnReady
  simp only
  rw [foldl_addEventListener, ht, hm]
  rfl

theorem nodup_querySelectorAll (doc : Document) (cls : String) :
    (querySelectorAll doc cls).Nodup :=
  List.Nodup.filter _ (List.nodup_range doc.length)

theorem mem_querySelectorAll (doc : Document) (cls : String) (b : Nat) :
    b ∈ querySelectorAll doc cls ↔ hasClass doc b cls = true := by
  unfold querySelectorAll
  rw [List.mem_filter, List.mem_range]
  constructor
  · exact fun h => h.2
  · intro h
    refine ⟨?_, h⟩
    by_contra hge
    unfold hasClass at h
    rw [List.getElem?_eq_none (Nat.le_of_not_lt hge)] at h
    simp at h

/-! ## Several listener bodies in a row -/

theorem runHandlers_error (hs : List Handler) (w : World) :
    (runHandlers hs w).error = none := by
  induction hs generalizing w with
  | nil => rfl
  | cons h hs ih =>
    simp only [runHandlers, runHandler_error]
    exact ih _

theorem runHandlers_cons_world (h : Handler) (hs : List Handler) (w : World) :
    (runHandlers (h :: hs) w).world = (runHandlers hs (runHandler h w).world).world := by
  simp only [runHandlers, runHandler_error]

theorem runHandlers_append_world (a b : List Handler) (w : World) :
    (runHandlers (a ++ b) w).world = (runHandlers b (runHandlers a w).world).world := by
  induction a generalizing w with
  | nil => rfl
  | cons h hs ih =>
    rw [List.cons_append, runHandlers_cons_world, runHandlers_cons_world, ih]

theorem runHandlers_sameShape (hs : List Handler) (w : World) :
    SameShape w.doc (runHandlers hs w).world.doc := by
  induction hs generalizing w with
  | nil => exact sameShape_refl _
  | cons h hs ih =>
    rw [runHandlers_cons_world]
    exact sameShape_trans (runHandler_sameShape h w) (ih _)

theorem runHandlers_listeners (hs : List Handler) (w : World) :
    (runHandlers hs w).world.listeners = w.listeners := by
  induction hs generalizing w with
  | nil => rfl
  | cons h hs ih =>
    rw [runHandlers_cons_world, ih, runHandler_listeners]

theorem runHandlers_charts (hs : List Handler) (w : World) :
    (runHandlers hs w).world.charts = w.charts := by
  induction hs generalizing w with
  | nil => rfl
  | cons h hs ih =>
    rw [runHandlers_cons_world, ih, runHandler_charts]

theorem runHandlers_alerts (hs : List Handler) (w : World)
    (hr : ∀ h ∈ hs, h ≠ Handler.refreshAlert) :
    (runHandlers hs w).world.alerts = w.alerts := by
  induction hs generalizing w with
  | nil => rfl
  | cons h hs ih =>
    rw [runHandlers_cons_world, ih _ (fun x hx => hr x (List.mem_cons_of_mem _ hx)),
      runHandler_alerts h w (hr h (List.mem_cons_self _ _))]

theorem runHandlers_frame_attr (hs : List Handler) (w : World) (j : Nat) (m : String)
    (hw : ∀ h ∈ hs, ¬ writes w.doc h j m) :
    getAttribute (runHandlers hs w).world.doc j m = getAttribute w.doc j m := by
  induction hs generalizing w with
  | nil => rfl
  | cons h hs ih =>
    rw [runHandlers_cons_world, ih, runHandler_frame_attr h w j m (hw h (List.mem_cons_self _ _))]
    intro x hx hwx
    exact hw x (List.mem_cons_of_mem _ hx)
      ((writes_congr (runHandler_sameShape h w) x j m).mp hwx)

theorem runHandlers_frame_class (hs : List Handler) (w : World) (j : Nat) (c : String)
    (hc : ∀ t, Handler.navbarToggle t j ∈ hs → c ≠ "open") :
    hasClass (runHandlers hs w).world.doc j c = hasClass w.doc j c := by
  induction hs generalizing w with
  | nil => rfl
  | cons h hs ih =>
    rw [runHandlers_cons_world, ih _ (fun t ht => hc t (List.mem_cons_of_mem _ ht))]
    apply runHandler_frame_class
    intro t ht
    exact hc t (by rw [ht]; exact List.mem_cons_self _ _)

theorem runHandlers_noop (hs : List Handler) (w : World)
    (h : ∀ hd ∈ hs, runHandler hd w = ⟨w, none⟩) : runHandlers hs w = ⟨w, none⟩ := by
  induction hs with
  | nil => rfl
  | cons hd hs ih =>
    have h1 := h hd (List.mem_cons_self _ _)
    simp only [runHandlers, h1]
    exact ih (fun x hx => h x (List.mem_cons_of_mem _ hx))

/-! ## The listeners `main.js` leaves on the page -/

theorem listenersOn_append (a b : List Listener) (el : Nat) :
    listenersOn (a ++ b) el = listenersOn a el ++ listenersOn b el := by
  simp [listenersOn]

theorem listenersOn_submenu_map (l : List Nat) (hn : l.Nodup) (el : Nat) :
    listenersOn (l.map (fun btn => (⟨btn, "click", Handler.submenuToggle btn⟩ : Listener))) el =
      if el ∈ l then [Handler.submenuToggle el] else [] := by
  induction l with
  | nil => simp [listenersOn]
  | cons b r ih =>
    have hr := ih (List.nodup_cons.mp hn).2
    have hb : b ∉ r := (List.nodup_cons.mp hn).1
    simp only [listenersOn] at hr
    by_cases hbe : b = el
    · subst hbe
      simp only [listenersOn, List.map_cons, List.filter_cons, decide_True, Bool.and_self,
        if_true, List.mem_cons, true_or, hr, if_neg hb]
    · have hne : ¬ el = b := fun h => hbe h.symm
      simp only [listenersOn, List.map_cons, List.filter_cons, hbe, decide_False,
        Bool.false_and, List.mem_cons, hne, false_or]
      exact hr

theorem listenersOn_mainOnReady (w : World) (hl : w.listeners = []) (el : Nat) :
    listenersOn (mainOnReady w).world.listeners el = wired w.doc el := by
  have hq := listenersOn_submenu_map (querySelectorAll w.doc "submenu-toggle")
    (nodup_querySelectorAll _ _) el
  have hmem : (el ∈ querySelectorAll w.doc "submenu-toggle") =
      (hasClass w.doc el "submenu-toggle" = true) :=
    propext (mem_querySelectorAll _ _ _)
  cases ht : getElementById w.doc "menu-toggle" with
  | none =>
    rw [mainOnReady_without_navbar w (Or.inl ht)]
    simp only [hl, List.nil_append, hq, wired, wiredNavbar, wiredSubmenu, ht, hmem]
  | some t =>
    cases hm : getElementById w.doc "nav-menu" with
    | none =>
      rw [mainOnReady_without_navbar w (Or.inr hm)]
      simp only [hl, List.nil_append, hq, wired, wiredNavbar, wiredSubmenu, ht, hm, hmem]
    | some m =>
      rw [mainOnReady_with_navbar w t m ht hm]
      simp only [hl, List.nil_append, listenersOn_append, hq, wired, wiredNavbar, wiredSubmenu,
        ht, hm, hmem]
      congr 1
      by_cases hte : t = el
      · simp [listenersOn, hte]
      · simp [listenersOn, hte]

theorem mem_wiredNavbar (doc : Document) (el : Nat) (h : Handler)
    (h1 : h ∈ wiredNavbar doc el) :
    ∃ m, h = Handler.navbarToggle el m ∧ getElementById doc "menu-toggle" = some el ∧
      getElementById doc "nav-menu" = some m := by
  unfold wiredNavbar at h1
  cases ht : getElementById doc "menu-toggle" with
  | none => rw [ht] at h1; simp at h1
  | some t =>
    cases hn : getElementById doc "nav-menu" with
    | none => rw [ht, hn] at h1; simp at h1
    | some m =>
      rw [ht, hn] at h1
      simp only at h1
      by_cases hte : t = el
      · subst hte
        simp only [if_true, List.mem_singleton] at h1
        exact ⟨m, h1, rfl, rfl⟩
      · simp [hte] at h1

theorem mem_wiredSubmenu (doc : Document) (el : Nat) (h : Handler)
    (h1 : h ∈ wiredSubmenu doc el) :
    h = Handler.submenuToggle el ∧ hasClass doc el "submenu-toggle" = true := by
  unfold wiredSubmenu at h1
  by_cases hc : hasClass doc el "submenu-toggle" = true
  · simp only [hc, if_true, List.mem_singleton] at h1
    exact ⟨h1, hc⟩
  · simp [hc] at h1

theorem mem_wired (doc : Document) (el : Nat) (h : Handler) (hm : h ∈ wired doc el) :
    (h = Handler.submenuToggle el ∧ hasClass doc el "submenu-toggle" = true) ∨
    (∃ m, h = Handler.navbarToggle el m ∧ getElementById doc "menu-toggle" = some el ∧
      getElementById doc "nav-menu" = some m) := by
  unfold wired at hm
  rcases List.mem_append.mp hm with h1 | h1
  · exact Or.inr (mem_wiredNavbar doc el h h1)
  · exact Or.inl (mem_wiredSubmenu doc el h h1)

theorem mem_handlersAlong (ls : List Listener) (path : List Nat) (h : Handler)
    (hm : h ∈ handlersAlong ls path) : ∃ el ∈ path, h ∈ listenersOn ls el := by
  induction path with
  | nil => simp [handlersAlong] at hm
  | cons a r ih =>
    simp only [handlersAlong] at hm
    rcases List.mem_append.mp hm with h1 | h1
    · exact ⟨a, List.mem_cons_self _ _, h1⟩
    · obtain ⟨el, hel, hh⟩ := ih h1
      exact ⟨el, List.mem_cons_of_mem _ hel, hh⟩

/-! ## Pages in document order -/

theorem wellFormed_parent_lt (doc : Document) (hwf : wellFormed doc = true) (i p : Nat)
    (h : parentElement doc i = some p) : p < i := by
  have hi := parentElement_lt doc i p h
  unfold wellFormed at hwf
  rw [List.all_eq_true] at hwf
  have := hwf i (List.mem_range.mpr hi)
  rw [h] at this
  simpa using this

theorem ancestors_lt (doc : Document) (hwf : wellFormed doc = true) (fuel i a : Nat)
    (ha : a ∈ ancestors doc fuel i) : a < i := by
  induction fuel generalizing i with
  | zero => simp [ancestors] at ha
  | succ fuel ih =>
    simp only [ancestors] at ha
    cases hp : parentElement doc i with
    | none => rw [hp] at ha; simp at ha
    | some p =>
      rw [hp] at ha
      have hpi := wellFormed_parent_lt doc hwf i p hp
      rcases List.mem_cons.mp ha with h1 | h1
      · rw [h1]; exact hpi
      · exact Nat.lt_trans (ih p h1) hpi

/-! ## The navbar listener, one run -/

theorem classListContains_navbarClick (t m : Nat) (w : World) (hm : m < w.doc.length) :
    classListContains (navbarClick t m w).world.doc m "open" =
      !classListContains w.doc m "open" := by
  simp only [navbarClick, classListContains, setAttribute]
  rw [hasClass_updateAt _ (attrOnly_set _ _)]
  exact classListContains_classListToggle w.doc m "open" hm

theorem getAttribute_aria_navbarClick (t m : Nat) (w : World) (ht : t < w.doc.length) :
    getAttribute (navbarClick t m w).world.doc t "aria-expanded" =
      some (jsString (!classListContains w.doc m "open")) := by
  simp only [navbarClick]
  rw [getAttribute_setAttribute_same _ t _ _ (by rw [length_classListToggle]; exact ht),
    classListToggle_snd]

/-! ## States reached by clicking -/

theorem mainOnReady_doc (w : World) : (mainOnReady w).world.doc = w.doc := by
  cases ht : getElementById w.doc "menu-toggle" with
  | none => rw [mainOnReady_without_navbar w (Or.inl ht)]
  | some t =>
    cases hm : getElementById w.doc "nav-menu" with
    | none => rw [mainOnReady_without_navbar w (Or.inr hm)]
    | some m => rw [mainOnReady_with_navbar w t m ht hm]

theorem mainOnReady_rest (w : World) :
    (mainOnReady w).world.charts = w.charts ∧ (mainOnReady w).world.alerts = w.alerts := by
  cases ht : getElementById w.doc "menu-toggle" with
  | none => rw [mainOnReady_without_navbar w (Or.inl ht)]; exact ⟨rfl, rfl⟩
  | some t =>
    cases hm : getElementById w.doc "nav-menu" with
    | none => rw [mainOnReady_without_navbar w (Or.inr hm)]; exact ⟨rfl, rfl⟩
    | some m => rw [mainOnReady_with_navbar w t m ht hm]; exact ⟨rfl, rfl⟩

theorem reached_ready (w0 : World) : Reached w0 (mainOnReady w0).world :=
  ⟨rfl, by rw [mainOnReady_doc]; exact sameShape_refl _⟩

theorem click_reached (w0 w : World) (x : Nat) (hr : Reached w0 w) :
    Reached w0 (click x w).world :=
  ⟨(runHandlers_listeners _ w).trans hr.1,
    sameShape_trans hr.2 (runHandlers_sameShape _ w)⟩

theorem clicks_reached (w0 w : World) (x : Nat) (hr : Reached w0 w) (n : Nat) :
    Reached w0 (clicks (click x) n w) := by
  induction n with
  | zero => exact hr
  | succ n ih => exact click_reached w0 _ x ih

theorem clickHandlers_reached (w0 w : World) (hl : w0.listeners = []) (hr : Reached w0 w)
    (x : Nat) :
    clickHandlers w x = wiredNavbar w0.doc x ++ (wiredSubmenu w0.doc x ++
      handlersAlong (mainOnReady w0).world.listeners (ancestors w0.doc w0.doc.length x)) := by
  unfold clickHandlers
  rw [hr.1, eventPath_congr hr.2]
  simp only [eventPath, handlersAlong]
  rw [listenersOn_mainOnReady w0 hl, wired, List.append_assoc]

theorem mem_handlersAlong_ready (w0 : World) (hl : w0.listeners = []) (path : List Nat)
    (h : Handler) (hm : h ∈ handlersAlong (mainOnReady w0).world.listeners path) :
    ∃ el ∈ path, h ∈ wired w0.doc el := by
  obtain ⟨el, hel, hh⟩ := mem_handlersAlong _ path h hm
  rw [listenersOn_mainOnReady w0 hl] at hh
  exact ⟨el, hel, hh⟩

theorem mem_clickHandlers_reached (w0 w : World) (hl : w0.listeners = [])
    (hr : Reached w0 w) (x : Nat) (h : Handler) (hm : h ∈ clickHandlers w x) :
    ∃ el ∈ eventPath w0.doc x, h ∈ wired w0.doc el := by
  unfold clickHandlers at hm
  rw [hr.1, eventPath_congr hr.2] at hm
  exact mem_handlersAlong_ready w0 hl _ h hm

theorem aria_ne_hidden : "aria-expanded" ≠ "hidden" := by decide

theorem clicks_succ (step : World → Outcome) (n : Nat) (w : World) :
    clicks step (n + 1) w = (step (clicks step n w)).world := rfl

theorem clicks_two (step : World → Outcome) (w : World) :
    clicks step 2 w = (step (step w).world).world := rfl

/-- One click on a submenu control `btn` with panel `p`, when no ancestor
control resolves to `p` as well. -/
theorem click_submenu_core (w0 w : World) (btn p : Nat) (hl : w0.listeners = [])
    (hr : Reached w0 w) (hwf : wellFormed w0.doc = true)
    (hb : hasClass w0.doc btn "submenu-toggle" = true)
    (hp : submenuPanel w0.doc btn = some p)
    (hanc : ∀ a ∈ ancestors w0.doc w0.doc.length btn,
      hasClass w0.doc a "submenu-toggle" = true → submenuPanel w0.doc a ≠ some p) :
    getAttribute (click btn w).world.doc p "hidden" =
      (if hasAttribute w.doc p "hidden" then none else some "") ∧
    getAttribute (click btn w).world.doc btn "aria-expanded" =
      some (jsString (hasAttribute w.doc p "hidden")) := by
  have hsubl : wiredSubmenu w0.doc btn = [Handler.submenuToggle btn] := by
    simp [wiredSubmenu, hb]
  unfold click
  rw [clickHandlers_reached w0 w hl hr btn, runHandlers_append_world, hsubl,
    List.singleton_append, runHandlers_cons_world]
  -- the navbar listener, when the control is also the menu button
  have hs1 : SameShape w0.doc (runHandlers (wiredNavbar w0.doc btn) w).world.doc :=
    sameShape_trans hr.2 (runHandlers_sameShape _ w)
  have hh1 : getAttribute (runHandlers (wiredNavbar w0.doc btn) w).world.doc p "hidden" =
      getAttribute w.doc p "hidden" := by
    apply runHandlers_frame_attr
    intro h hm hw
    obtain ⟨m, rfl, _, _⟩ := mem_wiredNavbar _ _ h hm
    exact aria_ne_hidden hw.2.symm
  have hp1 : submenuPanel (runHandlers (wiredNavbar w0.doc btn) w).world.doc btn = some p := by
    rw [submenuPanel_congr hs1, hp]
  have hha : hasAttribute (runHandlers (wiredNavbar w0.doc btn) w).world.doc p "hidden" =
      hasAttribute w.doc p "hidden" := by
    unfold hasAttribute
    rw [hh1]
  -- the listeners of the ancestors
  have hs2 : SameShape w0.doc
      (runHandler (Handler.submenuToggle btn)
        (runHandlers (wiredNavbar w0.doc btn) w).world).world.doc :=
    sameShape_trans hs1 (runHandler_sameShape _ _)
  have hrest : ∀ h ∈ handlersAlong (mainOnReady w0).world.listeners
      (ancestors w0.doc w0.doc.length btn),
      ¬ writes w0.doc h p "hidden" ∧ ¬ writes w0.doc h btn "aria-expanded" := by
    intro h hm
    obtain ⟨a, ha, hw⟩ := mem_handlersAlong_ready w0 hl _ h hm
    have hlt := ancestors_lt w0.doc hwf _ btn a ha
    have hne : btn ≠ a := fun e => by rw [e] at hlt; exact Nat.lt_irrefl _ hlt
    rcases mem_wired _ _ h hw with ⟨rfl, hc⟩ | ⟨m, rfl, _, _⟩
    · constructor
      · rintro (⟨_, h2, _⟩ | ⟨h2, _⟩)
        · exact aria_ne_hidden h2.symm
        · exact hanc a ha hc h2
      · rintro (⟨h2, _⟩ | ⟨_, h2⟩)
        · exact hne h2
        · exact aria_ne_hidden h2
    · constructor
      · rintro ⟨_, h2⟩
        exact aria_ne_hidden h2.symm
      · rintro ⟨h2, _⟩
        exact hne h2
  constructor
  · rw [runHandlers_frame_attr _ _ p "hidden"
      (fun h hm hw => (hrest h hm).1 ((writes_congr hs2 h p "hidden").mp hw))]
    show getAttribute (submenuClick btn _).world.doc p "hidden" = _
    rw [getAttribute_hidden_submenuClick _ btn p hp1, hha]
  · rw [runHandlers_frame_attr _ _ btn "aria-expanded"
      (fun h hm hw => (hrest h hm).2 ((writes_congr hs2 h btn "aria-expanded").mp hw))]
    show getAttribute (submenuClick btn _).world.doc btn "aria-expanded" = _
    rw [getAttribute_aria_submenuClick _ btn p hp1, hha]

/-- One click on the menu button `t`, when it is not also a submenu control
with a panel. -/
theorem click_navbar_core (w0 w : World) (t m : Nat) (hl : w0.listeners = [])
    (hr : Reached w0 w) (hwf : wellFormed w0.doc = true)
    (ht : getElementById w0.doc "menu-toggle" = some t)
    (hm : getElementById w0.doc "nav-menu" = some m)
    (hsub : hasClass w0.doc t "submenu-toggle" = true → submenuPanel w0.doc t = none) :
    classListContains (click t w).world.doc m "open" = (!classListContains w.doc m "open") ∧
    getAttribute (click t w).world.doc t "aria-expanded" =
      some (jsString (!classListContains w.doc m "open")) := by
  have hnavl : wiredNavbar w0.doc t = [Handler.navbarToggle t m] := by
    simp [wiredNavbar, ht, hm]
  have htl : t < w.doc.length := by rw [hr.2.1]; exact getElementById_lt _ _ t ht
  have hml : m < w.doc.length := by rw [hr.2.1]; exact getElementById_lt _ _ m hm
  unfold click
  rw [clickHandlers_reached w0 w hl hr t, hnavl, List.singleton_append, runHandlers_cons_world]
  have hs1 : SameShape w0.doc (runHandler (Handler.navbarToggle t m) w).world.doc :=
    sameShape_trans hr.2 (runHandler_sameShape _ w)
  have hrest : ∀ h ∈ wiredSubmenu w0.doc t ++
      handlersAlong (mainOnReady w0).world.listeners (ancestors w0.doc w0.doc.length t),
      ¬ writes w0.doc h t "aria-expanded" ∧ ∀ t2, h ≠ Handler.navbarToggle t2 m := by
    intro h hmem
    rcases List.mem_append.mp hmem with h1 | h1
    · obtain ⟨rfl, hc⟩ := mem_wiredSubmenu _ _ h h1
      have hnone := hsub hc
      constructor
      · rintro (⟨_, _, h2⟩ | ⟨h2, _⟩)
        · exact h2 hnone
        · rw [hnone] at h2; cases h2
      · intro t2 h2; cases h2
    · obtain ⟨a, ha, hw⟩ := mem_handlersAlong_ready w0 hl _ h h1
      have hlt := ancestors_lt w0.doc hwf _ t a ha
      have hne : t ≠ a := fun e => by rw [e] at hlt; exact Nat.lt_irrefl _ hlt
      rcases mem_wired _ _ h hw with ⟨rfl, _⟩ | ⟨m2, rfl, hta, _⟩
      · constructor
        · rintro (⟨h2, _⟩ | ⟨_, h2⟩)
          · exact hne h2
          · exact aria_ne_hidden h2
        · intro t2 h2; cases h2
      · rw [ht] at hta
        exact absurd (Option.some.inj hta) hne
  constructor
  · show hasClass _ m "open" = _
    rw [runHandlers_frame_class _ _ m "open"
      (fun t2 h2 => absurd rfl ((hrest _ h2).2 t2))]
    exact classListContains_navbarClick t m w hml
  · rw [runHandlers_frame_attr _ _ t "aria-expanded"
      (fun h hmem hw => (hrest h hmem).1 ((writes_congr hs1 h t "aria-expanded").mp hw))]
    exact getAttribute_aria_navbarClick t m w htl

/-- A click that reaches no control with an effect changes nothing. -/
theorem click_noop_core (w0 w : World) (btn : Nat) (hl : w0.listeners = [])
    (hr : Reached w0 w)
    (hpath : ∀ a ∈ eventPath w0.doc btn,
      (hasClass w0.doc a "submenu-toggle" = true → submenuPanel w0.doc a = none) ∧
      (getElementById w0.doc "menu-toggle" = some a →
        getElementById w0.doc "nav-menu" = none)) :
    click btn w = ⟨w, none⟩ := by
  unfold click
  apply runHandlers_noop
  intro h hm
  obtain ⟨a, ha, hw⟩ := mem_clickHandlers_reached w0 w hl hr btn h hm
  rcases mem_wired _ _ h hw with ⟨rfl, hc⟩ | ⟨m, rfl, hta, hnm⟩
  · apply submenuClick_of_no_panel
    rw [submenuPanel_congr hr.2]
    exact (hpath a ha).1 hc
  · rw [(hpath a ha).2 hta] at hnm
    cases hnm

/-! ## Claims about the submenu controls -/

/-- C1 fails as stated: on the page with the nested control a click on the
button also runs the listener of the enclosing control, which resolves to the
same panel; the panel has `hidden` before and after the click, and the button
ends with `aria-expanded="true"`. -/
theorem submenu_click_counterexample :
    hasClass nestedControlWorld.doc 2 "submenu-toggle" = true ∧
    submenuPanel nestedControlWorld.doc 2 = some 3 ∧
    clickHandlers (mainOnReady nestedControlWorld).world 2 =
      [Handler.submenuToggle 2, Handler.submenuToggle 1] ∧
    hasAttribute (mainOnReady nestedControlWorld).world.doc 3 "hidden" = true ∧
    hasAttribute (click 2 (mainOnReady nestedControlWorld).world).world.doc 3 "hidden" = true ∧
    getAttribute (click 2 (mainOnReady nestedControlWorld).world).world.doc 2 "aria-expanded" =
      some "true" := by
  decide

/-- C1 as amended: after `main.js` ran on a page, for a `.submenu-toggle`
button whose parent contains a panel `p`, provided no enclosing
`.submenu-toggle` control resolves to `p` as well, click number `n + 1` on the
button (for every `n`, from every initial attribute state) does not throw,
still resolves to `p`, flips the presence of `hidden` on `p`, and leaves
`aria-expanded` of the button equal to `"true"` exactly when `p` has no
`hidden` and to `"false"` exactly when it has; a click on a panel that has
`hidden` removes it and sets `aria-expanded` to `"true"`. -/
theorem submenu_click_alternates (w : World) (btn p : Nat)
    (hl : w.listeners = []) (hwf : wellFormed w.doc = true)
    (hb : hasClass w.doc btn "submenu-toggle" = true)
    (hp : submenuPanel w.doc btn = some p)
    (hanc : ∀ a ∈ ancestors w.doc w.doc.length btn,
      hasClass w.doc a "submenu-toggle" = true → submenuPanel w.doc a ≠ some p)
    (n : Nat) :
    (click btn (clicks (click btn) n (mainOnReady w).world)).error = none ∧
    submenuPanel (clicks (click btn) n (mainOnReady w).world).doc btn = some p ∧
    hasAttribute (clicks (click btn) (n + 1) (mainOnReady w).world).doc p "hidden" =
      (!hasAttribute (clicks (click btn) n (mainOnReady w).world).doc p "hidden") ∧
    (getAttribute (clicks (click btn) (n + 1) (mainOnReady w).world).doc btn "aria-expanded" =
        some "true" ↔
      hasAttribute (clicks (click btn) (n + 1) (mainOnReady w).world).doc p "hidden" = false) ∧
    (getAttribute (clicks (click btn) (n + 1) (mainOnReady w).world).doc btn "aria-expanded" =
        some "false" ↔
      hasAttribute (clicks (click btn) (n + 1) (mainOnReady w).world).doc p "hidden" = true) ∧
    (hasAttribute (clicks (click btn) n (mainOnReady w).world).doc p "hidden" = true →
      hasAttribute (clicks (click btn) (n + 1) (mainOnReady w).world).doc p "hidden" = false ∧
      getAttribute (clicks (click btn) (n + 1) (mainOnReady w).world).doc btn "aria-expanded" =
        some "true") := by
  have hr := clicks_reached w _ btn (reached_ready w) n
  have core := click_submenu_core w _ btn p hl hr hwf hb hp hanc
  have hh : hasAttribute (clicks (click btn) (n + 1) (mainOnReady w).world).doc p "hidden" =
      (!hasAttribute (clicks (click btn) n (mainOnReady w).world).doc p "hidden") := by
    show hasAttribute (click btn _).world.doc p "hidden" = _
    unfold hasAttribute
    rw [core.1]
    unfold hasAttribute
    cases getAttribute (clicks (click btn) n (mainOnReady w).world).doc p "hidden" <;> simp
  have ha : getAttribute (clicks (click btn) (n + 1) (mainOnReady w).world).doc btn
      "aria-expanded" =
      some (jsString (hasAttribute (clicks (click btn) n (mainOnReady w).world).doc p
        "hidden")) := core.2
  refine ⟨runHandlers_error _ _, ?_, hh, ?_, ?_, ?_⟩
  · rw [submenuPanel_congr hr.2, hp]
  · rw [ha, hh]
    cases hasAttribute (clicks (click btn) n (mainOnReady w).world).doc p "hidden" <;>
      simp [jsString]
  · rw [ha, hh]
    cases hasAttribute (clicks (click btn) n (mainOnReady w).world).doc p "hidden" <;>
      simp [jsString]
  · intro hhid
    rw [ha, hh, hhid]
    simp [jsString]

/-- Instance of C1 on the page with two nested controls that have panels of
their own: the third click on the inner button. -/
theorem submenu_click_alternates_witness :
    wellFormed nestedIndependentWorld.doc = true ∧
    hasClass nestedIndependentWorld.doc 3 "submenu-toggle" = true ∧
    submenuPanel nestedIndependentWorld.doc 3 = some 4 ∧
    ancestors nestedIndependentWorld.doc nestedIndependentWorld.doc.length 3 = [2, 0] ∧
    submenuPanel nestedIndependentWorld.doc 2 = some 1 ∧
    hasAttribute (clicks (click 3) 3 (mainOnReady nestedIndependentWorld).world).doc 4 "hidden" =
      (!hasAttribute (clicks (click 3) 2 (mainOnReady nestedIndependentWorld).world).doc 4
        "hidden") :=
  ⟨by decide, by decide, by decide, by decide, by decide,
   (submenu_click_alternates nestedIndependentWorld 3 4 rfl (by decide) (by decide) (by decide)
      (by decide) 2).2.2.1⟩

/-- C10 fails as stated: on the page with the menu button, the button is a
`.submenu-toggle` whose parent has no `.submenu` descendant, yet a click on it
also runs the navbar listener registered on it, which sets its `aria-expanded`
to `"true"` and adds `open` to the menu. -/
theorem submenu_click_without_panel_counterexample :
    hasClass menuButtonWorld.doc 1 "submenu-toggle" = true ∧
    parentElement menuButtonWorld.doc 1 = some 0 ∧
    querySelector menuButtonWorld.doc 0 "submenu" = none ∧
    clickHandlers (mainOnReady menuButtonWorld).world 1 =
      [Handler.navbarToggle 1 2, Handler.submenuToggle 1] ∧
    getAttribute (mainOnReady menuButtonWorld).world.doc 1 "aria-expanded" = some "false" ∧
    getAttribute (click 1 (mainOnReady menuButtonWorld).world).world.doc 1 "aria-expanded" =
      some "true" ∧
    hasClass (click 1 (mainOnReady menuButtonWorld).world).world.doc 2 "open" = true := by
  decide

/-- C10 as amended: after `main.js` ran on a page, a click on a submenu button
that has no parent element, or whose parent has no `.submenu` descendant, does
not throw and leaves the whole state as it was (every attribute of every
element, `aria-expanded` of the button included), for any number of clicks,
provided no enclosing `.submenu-toggle` control resolves to a panel and neither
the button nor an element enclosing it is the `menu-toggle` of a page with a
`nav-menu`. -/
theorem submenu_click_without_panel (w : World) (btn : Nat)
    (hl : w.listeners = [])
    (h : parentElement w.doc btn = none ∨
      ∃ q, parentElement w.doc btn = some q ∧ querySelector w.doc q "submenu" = none)
    (hanc : ∀ a ∈ ancestors w.doc w.doc.length btn,
      hasClass w.doc a "submenu-toggle" = true → submenuPanel w.doc a = none)
    (hnav : ∀ a ∈ eventPath w.doc btn,
      getElementById w.doc "menu-toggle" = some a → getElementById w.doc "nav-menu" = none) :
    click btn (mainOnReady w).world = ⟨(mainOnReady w).world, none⟩ ∧
    (∀ n, clicks (click btn) n (mainOnReady w).world = (mainOnReady w).world) ∧
    getAttribute (click btn (mainOnReady w).world).world.doc btn "aria-expanded" =
      getAttribute w.doc btn "aria-expanded" := by
  have hp : submenuPanel w.doc btn = none := by
    unfold submenuPanel
    rcases h with h | ⟨q, hq, hs⟩
    · rw [h]; rfl
    · rw [hq]; simpa using hs
  have hpath : ∀ a ∈ eventPath w.doc btn,
      (hasClass w.doc a "submenu-toggle" = true → submenuPanel w.doc a = none) ∧
      (getElementById w.doc "menu-toggle" = some a →
        getElementById w.doc "nav-menu" = none) := by
    intro a ha
    refine ⟨?_, hnav a ha⟩
    rcases List.mem_cons.mp ha with h1 | h1
    · intro _
      rw [h1]
      exact hp
    · exact hanc a h1
  have h1 := click_noop_core w _ btn hl (reached_ready w) hpath
  refine ⟨h1, ?_, ?_⟩
  · intro n
    induction n with
    | zero => rfl
    | succ n ih => simp only [clicks]; rw [ih, h1]
  · rw [h1, mainOnReady_doc]

/-- Instance of C10 on the page with the lonely button. -/
theorem submenu_click_without_panel_witness :
    (parentElement lonelyButtonWorld.doc 1 = none ∨
      ∃ q, parentElement lonelyButtonWorld.doc 1 = some q ∧
        querySelector lonelyButtonWorld.doc q "submenu" = none) ∧
    click 1 (mainOnReady lonelyButtonWorld).world = ⟨(mainOnReady lonelyButtonWorld).world, none⟩ :=
  ⟨Or.inr ⟨0, by decide, by decide⟩,
   (submenu_click_without_panel lonelyButtonWorld 1 rfl (Or.inr ⟨0, by decide, by decide⟩)
      (by decide) (by decide)).1⟩

/-- C2 fails as stated: on the sidebar entry the button starts without
`aria-expanded`, and after two clicks it carries `aria-expanded="false"`. -/
theorem submenu_two_clicks_counterexample :
    submenuPanel sidebarWorld.doc 1 = some 2 ∧
    clickHandlers (mainOnReady sidebarWorld).world 1 = [Handler.submenuToggle 1] ∧
    getAttribute (mainOnReady sidebarWorld).world.doc 1 "aria-expanded" = none ∧
    getAttribute (clicks (click 1) 2 (mainOnReady sidebarWorld).world).doc 1 "aria-expanded" =
      some "false" := by
  decide

/-- C2 as amended: after `main.js` ran on a page, for a `.submenu-toggle`
button with panel `p` such that no enclosing `.submenu-toggle` control resolves
to `p` as well, two clicks on the button restore the presence of `hidden` on
the panel (with the empty value when present) and leave `aria-expanded` of the
button at the string form of "the panel has no `hidden`"; these two attributes
are both back at their original presence and value exactly when `hidden` was
absent or empty and `aria-expanded` already mirrored it. -/
theorem submenu_two_clicks (w : World) (btn p : Nat)
    (hl : w.listeners = []) (hwf : wellFormed w.doc = true)
    (hb : hasClass w.doc btn "submenu-toggle" = true)
    (hp : submenuPanel w.doc btn = some p)
    (hanc : ∀ a ∈ ancestors w.doc w.doc.length btn,
      hasClass w.doc a "submenu-toggle" = true → submenuPanel w.doc a ≠ some p) :
    hasAttribute (clicks (click btn) 2 (mainOnReady w).world).doc p "hidden" =
      hasAttribute w.doc p "hidden" ∧
    getAttribute (clicks (click btn) 2 (mainOnReady w).world).doc p "hidden" =
      (if hasAttribute w.doc p "hidden" then some "" else none) ∧
    getAttribute (clicks (click btn) 2 (mainOnReady w).world).doc btn "aria-expanded" =
      some (jsString (!hasAttribute w.doc p "hidden")) ∧
    ((getAttribute (clicks (click btn) 2 (mainOnReady w).world).doc p "hidden" =
        getAttribute w.doc p "hidden" ∧
      getAttribute (clicks (click btn) 2 (mainOnReady w).world).doc btn "aria-expanded" =
        getAttribute w.doc btn "aria-expanded") ↔
     ((getAttribute w.doc p "hidden" = none ∨ getAttribute w.doc p "hidden" = some "") ∧
      getAttribute w.doc btn "aria-expanded" =
        some (jsString (!hasAttribute w.doc p "hidden")))) := by
  have hr0 := reached_ready w
  have hr1 := click_reached w _ btn hr0
  have c1 := click_submenu_core w _ btn p hl hr0 hwf hb hp hanc
  have c2 := click_submenu_core w _ btn p hl hr1 hwf hb hp hanc
  have hd : (mainOnReady w).world.doc = w.doc := mainOnReady_doc w
  rw [hd] at c1
  have hh1 : hasAttribute (click btn (mainOnReady w).world).world.doc p "hidden" =
      (!hasAttribute w.doc p "hidden") := by
    unfold hasAttribute
    rw [c1.1]
    unfold hasAttribute
    cases getAttribute w.doc p "hidden" <;> simp
  rw [hh1] at c2
  have e2 : getAttribute (clicks (click btn) 2 (mainOnReady w).world).doc p "hidden" =
      (if hasAttribute w.doc p "hidden" then some "" else none) := by
    rw [clicks_two, c2.1]
    cases hasAttribute w.doc p "hidden" <;> simp
  have e3 : getAttribute (clicks (click btn) 2 (mainOnReady w).world).doc btn "aria-expanded" =
      some (jsString (!hasAttribute w.doc p "hidden")) := by
    rw [clicks_two, c2.2]
  have e1 : hasAttribute (clicks (click btn) 2 (mainOnReady w).world).doc p "hidden" =
      hasAttribute w.doc p "hidden" := by
    unfold hasAttribute
    rw [e2]
    unfold hasAttribute
    cases getAttribute w.doc p "hidden" <;> simp
  refine ⟨e1, e2, e3, ?_⟩
  rw [e2, e3]
  constructor
  · rintro ⟨h1, h2⟩
    refine ⟨?_, h2.symm⟩
    unfold hasAttribute at h1
    cases hg : getAttribute w.doc p "hidden" with
    | none => exact Or.inl rfl
    | some v =>
      rw [hg] at h1
      simp only [Option.isSome_some, if_true] at h1
      exact Or.inr h1.symm
  · rintro ⟨h1, h2⟩
    refine ⟨?_, h2.symm⟩
    rcases h1 with hv | hv
    · simp [hasAttribute, hv]
    · simp [hasAttribute, hv]

/-- Instance of the amended C2 on the page with two nested controls that have
panels of their own. -/
theorem submenu_two_clicks_witness :
    wellFormed nestedIndependentWorld.doc = true ∧
    hasClass nestedIndependentWorld.doc 3 "submenu-toggle" = true ∧
    submenuPanel nestedIndependentWorld.doc 3 = some 4 ∧
    hasAttribute (clicks (click 3) 2 (mainOnReady nestedIndependentWorld).world).doc 4 "hidden" =
      hasAttribute nestedIndependentWorld.doc 4 "hidden" :=
  ⟨by decide, by decide, by decide,
   (submenu_two_clicks nestedIndependentWorld 3 4 rfl (by decide) (by decide) (by decide)
      (by decide)).1⟩

/-- C5 fails as stated: on the page with the shared parent both buttons
resolve to the first panel, so a click on the second button (element 3) removes
`hidden` from element 2, the panel of the first button (element 1). -/
theorem submenu_groups_counterexample :
    querySelectorAll sharedParentWorld.doc "submenu-toggle" = [1, 3] ∧
    submenuPanel sharedParentWorld.doc 1 = some 2 ∧
    submenuPanel sharedParentWorld.doc 3 = some 2 ∧
    clickHandlers (mainOnReady sharedParentWorld).world 3 = [Handler.submenuToggle 3] ∧
    hasAttribute (mainOnReady sharedParentWorld).world.doc 2 "hidden" = true ∧
    hasAttribute (click 3 (mainOnReady sharedParentWorld).world).world.doc 2 "hidden" = false := by
  decide

/-- C5 as amended: after `main.js` ran on a page, a click on an element `x`
does not throw and leaves listeners, charts and alerts alone; the only
attributes that can read differently afterwards are `hidden` of a panel that a
`.submenu-toggle` control on the click path (`x` and the elements enclosing it)
resolves to, and `aria-expanded` of an element on that path that is a
`.submenu-toggle` or the `menu-toggle`; the only class that can change is
`open` on `nav-menu`, and only when `menu-toggle` is on the path.  So a group
whose control is off the path and whose panel is not the panel of a control on
the path keeps both attributes. -/
theorem submenu_click_frame (w : World) (x : Nat) (hl : w.listeners = []) :
    (click x (mainOnReady w).world).error = none ∧
    (click x (mainOnReady w).world).world.listeners = (mainOnReady w).world.listeners ∧
    (click x (mainOnReady w).world).world.charts = w.charts ∧
    (click x (mainOnReady w).world).world.alerts = w.alerts ∧
    (∀ j, (∀ a ∈ eventPath w.doc x,
        hasClass w.doc a "submenu-toggle" = true → submenuPanel w.doc a ≠ some j) →
      getAttribute (click x (mainOnReady w).world).world.doc j "hidden" =
        getAttribute w.doc j "hidden") ∧
    (∀ j, (j ∉ eventPath w.doc x ∨
        (hasClass w.doc j "submenu-toggle" = false ∧
          getElementById w.doc "menu-toggle" ≠ some j)) →
      getAttribute (click x (mainOnReady w).world).world.doc j "aria-expanded" =
        getAttribute w.doc j "aria-expanded") ∧
    (∀ j m, m ≠ "hidden" → m ≠ "aria-expanded" →
      getAttribute (click x (mainOnReady w).world).world.doc j m = getAttribute w.doc j m) ∧
    (∀ j c, (c ≠ "open" ∨ getElementById w.doc "nav-menu" ≠ some j ∨
        ∀ a ∈ eventPath w.doc x, getElementById w.doc "menu-toggle" ≠ some a) →
      hasClass (click x (mainOnReady w).world).world.doc j c = hasClass w.doc j c) ∧
    (∀ b q, submenuPanel w.doc b = some q → b ∉ eventPath w.doc x →
      (∀ a ∈ eventPath w.doc x,
        hasClass w.doc a "submenu-toggle" = true → submenuPanel w.doc a ≠ some q) →
      submenuPanel (click x (mainOnReady w).world).world.doc b = some q ∧
      getAttribute (click x (mainOnReady w).world).world.doc b "aria-expanded" =
        getAttribute w.doc b "aria-expanded" ∧
      getAttribute (click x (mainOnReady w).world).world.doc q "hidden" =
        getAttribute w.doc q "hidden") := by
  have hr := reached_ready w
  have hd : (mainOnReady w).world.doc = w.doc := mainOnReady_doc w
  have hmem : ∀ h ∈ clickHandlers (mainOnReady w).world x,
      ∃ a ∈ eventPath w.doc x,
        (h = Handler.submenuToggle a ∧ hasClass w.doc a "submenu-toggle" = true) ∨
        (∃ m, h = Handler.navbarToggle a m ∧ getElementById w.doc "menu-toggle" = some a ∧
          getElementById w.doc "nav-menu" = some m) := by
    intro h hm
    obtain ⟨a, ha, hw⟩ := mem_clickHandlers_reached w _ hl hr x h hm
    exact ⟨a, ha, mem_wired _ _ h hw⟩
  have hattr : ∀ j m, (∀ h ∈ clickHandlers (mainOnReady w).world x, ¬ writes w.doc h j m) →
      getAttribute (click x (mainOnReady w).world).world.doc j m = getAttribute w.doc j m := by
    intro j m hw
    unfold click
    rw [runHandlers_frame_attr _ _ j m, hd]
    intro h hm
    rw [hd]
    exact hw h hm
  have hhid : ∀ j, (∀ a ∈ eventPath w.doc x,
        hasClass w.doc a "submenu-toggle" = true → submenuPanel w.doc a ≠ some j) →
      getAttribute (click x (mainOnReady w).world).world.doc j "hidden" =
        getAttribute w.doc j "hidden" := by
    intro j hj
    apply hattr
    intro h hm hw
    obtain ⟨a, ha, ⟨rfl, hc⟩ | ⟨m, rfl, _, _⟩⟩ := hmem h hm
    · rcases hw with ⟨_, h2, _⟩ | ⟨h2, _⟩
      · exact aria_ne_hidden h2.symm
      · exact hj a ha hc h2
    · exact aria_ne_hidden hw.2.symm
  have haria : ∀ j, (j ∉ eventPath w.doc x ∨
        (hasClass w.doc j "submenu-toggle" = false ∧
          getElementById w.doc "menu-toggle" ≠ some j)) →
      getAttribute (click x (mainOnReady w).world).world.doc j "aria-expanded" =
        getAttribute w.doc j "aria-expanded" := by
    intro j hj
    apply hattr
    intro h hm hw
    obtain ⟨a, ha, ⟨rfl, hc⟩ | ⟨m, rfl, hta, _⟩⟩ := hmem h hm
    · rcases hw with ⟨h2, _⟩ | ⟨_, h2⟩
      · subst h2
        rcases hj with h3 | ⟨h3, _⟩
        · exact h3 ha
        · rw [h3] at hc; cases hc
      · exact aria_ne_hidden h2
    · have h2 := hw.1
      subst h2
      rcases hj with h3 | ⟨_, h3⟩
      · exact h3 ha
      · exact h3 hta
  refine ⟨runHandlers_error _ _, runHandlers_listeners _ _,
    (runHandlers_charts _ _).trans (mainOnReady_rest w).1, ?_, hhid, haria, ?_, ?_, ?_⟩
  · unfold click
    rw [runHandlers_alerts]
    · exact (mainOnReady_rest w).2
    · intro h hm
      obtain ⟨a, _, ⟨rfl, _⟩ | ⟨m, rfl, _, _⟩⟩ := hmem h hm
      · intro h2; cases h2
      · intro h2; cases h2
  · intro j m h1 h2
    apply hattr
    intro h hm hw
    obtain ⟨a, _, ⟨rfl, _⟩ | ⟨n, rfl, _, _⟩⟩ := hmem h hm
    · rcases hw with ⟨_, h3, _⟩ | ⟨_, h3⟩
      · exact h2 h3
      · exact h1 h3
    · exact h2 hw.2
  · intro j c hc
    unfold click
    rw [runHandlers_frame_class _ _ j c, hd]
    intro t ht hco
    obtain ⟨a, ha, ⟨h2, _⟩ | ⟨m, h2, hta, hnm⟩⟩ := hmem _ ht
    · cases h2
    · injection h2 with h3 h4
      subst h3
      subst h4
      rcases hc with h5 | h5 | h5
      · exact h5 hco
      · exact h5 hnm
      · exact h5 t ha hta
  · intro b q hbq hb hq
    refine ⟨?_, ?_, hhid q hq⟩
    · rw [submenuPanel_congr (click_reached w _ x hr).2, hbq]
    · exact haria b (Or.inl hb)

/-- Instance of the amended C5 on the page with two nested controls that have
panels of their own: a click on the outer control leaves the inner group as
it was. -/
theorem submenu_click_frame_witness :
    eventPath nestedIndependentWorld.doc 2 = [2, 0] ∧
    submenuPanel nestedIndependentWorld.doc 3 = some 4 ∧
    hasAttribute (click 2 (mainOnReady nestedIndependentWorld).world).world.doc 1 "hidden" =
      false ∧
    (submenuPanel (click 2 (mainOnReady nestedIndependentWorld).world).world.doc 3 = some 4 ∧
      getAttribute (click 2 (mainOnReady nestedIndependentWorld).world).world.doc 3
        "aria-expanded" = getAttribute nestedIndependentWorld.doc 3 "aria-expanded" ∧
      getAttribute (click 2 (mainOnReady nestedIndependentWorld).world).world.doc 4 "hidden" =
        getAttribute nestedIndependentWorld.doc 4 "hidden") :=
  ⟨by decide, by decide, by decide,
   (submenu_click_frame nestedIndependentWorld 2 rfl).2.2.2.2.2.2.2.2 3 4 (by decide)
      (by decide) (by decide)⟩

/-! ## Claim about the navbar control -/

/-- C4 fails as stated: on the page where `menu-toggle` is also a
`.submenu-toggle` and `nav-menu` a `.submenu`, the first click runs the navbar
listener and then the submenu listener registered on the same button; `open`
is present afterwards and `aria-expanded` is `"false"`. -/
theorem navbar_click_counterexample :
    getElementById doubleRoleWorld.doc "menu-toggle" = some 1 ∧
    getElementById doubleRoleWorld.doc "nav-menu" = some 2 ∧
    clickHandlers (mainOnReady doubleRoleWorld).world 1 =
      [Handler.navbarToggle 1 2, Handler.submenuToggle 1] ∧
    classListContains (mainOnReady doubleRoleWorld).world.doc 2 "open" = false ∧
    classListContains (click 1 (mainOnReady doubleRoleWorld).world).world.doc 2 "open" = true ∧
    getAttribute (click 1 (mainOnReady doubleRoleWorld).world).world.doc 1 "aria-expanded" =
      some "false" := by
  decide

/-- C4 as amended: after `main.js` ran on a page with both `menu-toggle` and
`nav-menu`, provided `menu-toggle` is not also a `.submenu-toggle` control that
resolves to a panel, click number `n + 1` on `menu-toggle` (for every `n`, from
every initial class list) does not throw, flips whether the class list of
`nav-menu` contains `open`, and leaves `aria-expanded` of `menu-toggle` equal
to `"true"` exactly when `open` is present afterwards and to `"false"` exactly
when it is not; starting without `open`, the first click gives `open` and
`"true"`, the second removes `open` and gives `"false"`. -/
theorem navbar_click_toggles (w : World) (t m : Nat)
    (hl : w.listeners = []) (hwf : wellFormed w.doc = true)
    (ht : getElementById w.doc "menu-toggle" = some t)
    (hm : getElementById w.doc "nav-menu" = some m)
    (hsub : hasClass w.doc t "submenu-toggle" = true → submenuPanel w.doc t = none)
    (n : Nat) :
    (click t (clicks (click t) n (mainOnReady w).world)).error = none ∧
    classListContains (clicks (click t) (n + 1) (mainOnReady w).world).doc m "open" =
      (!classListContains (clicks (click t) n (mainOnReady w).world).doc m "open") ∧
    (getAttribute (clicks (click t) (n + 1) (mainOnReady w).world).doc t "aria-expanded" =
        some "true" ↔
      classListContains (clicks (click t) (n + 1) (mainOnReady w).world).doc m "open" = true) ∧
    (getAttribute (clicks (click t) (n + 1) (mainOnReady w).world).doc t "aria-expanded" =
        some "false" ↔
      classListContains (clicks (click t) (n + 1) (mainOnReady w).world).doc m "open" = false) ∧
    (classListContains w.doc m "open" = false →
      classListContains (clicks (click t) 1 (mainOnReady w).world).doc m "open" = true ∧
      getAttribute (clicks (click t) 1 (mainOnReady w).world).doc t "aria-expanded" =
        some "true" ∧
      classListContains (clicks (click t) 2 (mainOnReady w).world).doc m "open" = false ∧
      getAttribute (clicks (click t) 2 (mainOnReady w).world).doc t "aria-expanded" =
        some "false") := by
  have step : ∀ k,
      classListContains (clicks (click t) (k + 1) (mainOnReady w).world).doc m "open" =
        (!classListContains (clicks (click t) k (mainOnReady w).world).doc m "open") ∧
      getAttribute (clicks (click t) (k + 1) (mainOnReady w).world).doc t "aria-expanded" =
        some (jsString
          (!classListContains (clicks (click t) k (mainOnReady w).world).doc m "open")) := by
    intro k
    rw [clicks_succ]
    exact click_navbar_core w _ t m hl (clicks_reached w _ t (reached_ready w) k) hwf ht hm hsub
  refine ⟨runHandlers_error _ _, (step n).1, ?_, ?_, ?_⟩
  · rw [(step n).2, (step n).1]
    cases classListContains (clicks (click t) n (mainOnReady w).world).doc m "open" <;>
      simp [jsString]
  · rw [(step n).2, (step n).1]
    cases classListContains (clicks (click t) n (mainOnReady w).world).doc m "open" <;>
      simp [jsString]
  · intro h0
    have h0c : classListContains (clicks (click t) 0 (mainOnReady w).world).doc m "open" =
        false := by
      show classListContains (mainOnReady w).world.doc m "open" = false
      rw [mainOnReady_doc]
      exact h0
    have c1 : classListContains (clicks (click t) 1 (mainOnReady w).world).doc m "open" =
        true := by
      rw [(step 0).1, h0c]; rfl
    refine ⟨c1, ?_, ?_, ?_⟩
    · rw [(step 0).2, h0c]; rfl
    · rw [(step 1).1, c1]; rfl
    · rw [(step 1).2, c1]; rfl

/-- Instance of C4 on the page with the mobile menu: the second click. -/
theorem navbar_click_toggles_witness :
    wellFormed navbarWorld.doc = true ∧
    getElementById navbarWorld.doc "menu-toggle" = some 1 ∧
    getElementById navbarWorld.doc "nav-menu" = some 2 ∧
    classListContains (clicks (click 1) 2 (mainOnReady navbarWorld).world).doc 2 "open" =
      (!classListContains (clicks (click 1) 1 (mainOnReady navbarWorld).world).doc 2 "open") :=
  ⟨by decide, by decide, by decide,
   (navbar_click_toggles navbarWorld 1 2 rfl (by decide) (by decide) (by decide) (by decide)
      1).2.1⟩

/-! ## Page-ready listener of `main.js` -/

/-- C8: when `menu-toggle` or `nav-menu` is missing, the page-ready listener of
`main.js` does not throw, leaves the page as it is, and registers exactly one
click listener for each element with class `submenu-toggle` (in document order,
each element once) and nothing else, so no navbar listener; with no such
element it registers nothing. -/
theorem main_ready_missing_navbar (w : World)
    (h : getElementById w.doc "menu-toggle" = none ∨ getElementById w.doc "nav-menu" = none) :
    (mainOnReady w).error = none ∧
    (mainOnReady w).world.doc = w.doc ∧
    (mainOnReady w).world.listeners = w.listeners ++
      (querySelectorAll w.doc "submenu-toggle").map
        (fun btn => (⟨btn, "click", Handler.submenuToggle btn⟩ : Listener)) ∧
    (querySelectorAll w.doc "submenu-toggle").Nodup ∧
    (∀ b, b ∈ querySelectorAll w.doc "submenu-toggle" ↔ hasClass w.doc b "submenu-toggle" = true) ∧
    (∀ b, hasClass w.doc b "submenu-toggle" = true →
      (((mainOnReady w).world.listeners.drop w.listeners.length).filter
        (fun l => decide (l.target = b))).length = 1) ∧
    (∀ l t m, l ∈ (mainOnReady w).world.listeners.drop w.listeners.length →
      l.handler ≠ Handler.navbarToggle t m) ∧
    (querySelectorAll w.doc "submenu-toggle" = [] →
      (mainOnReady w).world.listeners = w.listeners) := by
  rw [mainOnReady_without_navbar w h]
  refine ⟨rfl, rfl, rfl, nodup_querySelectorAll _ _, mem_querySelectorAll _ _, ?_, ?_, ?_⟩
  · intro b hb
    simp only [List.drop_left]
    rw [List.filter_map, List.length_map]
    have hmem := (mem_querySelectorAll w.doc "submenu-toggle" b).mpr hb
    have hcount := List.count_eq_one_of_mem (nodup_querySelectorAll w.doc "submenu-toggle") hmem
    rw [List.count_eq_countP, List.countP_eq_length_filter] at hcount
    rw [← hcount]
    congr 1
  · intro l t m hl
    simp only [List.drop_left] at hl
    obtain ⟨b, _, rfl⟩ := List.mem_map.mp hl
    simp
  · intro hq
    simp [hq]

/-- Instance of C8 on the page with the shared parent, which has no navbar. -/
theorem main_ready_missing_navbar_witness :
    (getElementById sharedParentWorld.doc "menu-toggle" = none ∨
      getElementById sharedParentWorld.doc "nav-menu" = none) ∧
    (mainOnReady sharedParentWorld).error = none ∧
    (mainOnReady sharedParentWorld).world.listeners =
      [⟨1, "click", Handler.submenuToggle 1⟩, ⟨3, "click", Handler.submenuToggle 3⟩] :=
  ⟨Or.inl (by decide),
   (main_ready_missing_navbar sharedParentWorld (Or.inl (by decide))).1,
   by decide⟩

/-! ## Chart renderers -/

theorem getElementById_getElem (doc : Document) (id : String) (i : Nat)
    (h : getElementById doc id = some i) : ∃ e, doc[i]? = some e ∧ e.id = some id := by
  have hi := getElementById_lt doc id i h
  unfold getElementById at h
  have hp := List.find?_some h
  refine ⟨doc[i], List.getElem?_eq_getElem hi, ?_⟩
  rw [List.getElem?_eq_getElem hi] at hp
  simpa using hp

theorem chartsOnReady_absent (env : Env) (w : World)
    (h : getElementById w.doc "myChart" = none) :
    chartsOnReady env w = ⟨w, some nullGetContext⟩ := by
  simp [chartsOnReady, getContext, h, nullGetContext]

theorem dashboardOnReady_absent (env : Env) (w : World)
    (h : getElementById w.doc "userGrowthChart" = none) :
    dashboardOnReady env w = ⟨w, some nullGetContext⟩ := by
  simp [dashboardOnReady, getContext, h, nullGetContext]

theorem chartsOnReady_present (env : Env) (w : World) (i : Nat) (e : Element)
    (h : getElementById w.doc "myChart" = some i) (he : w.doc[i]? = some e)
    (hc : e.tag = "canvas") :
    chartsOnReady env w =
      ⟨{ w with charts := w.charts ++ [⟨env.getContext2d i, chartsConfig⟩] },
        env.chartCtor (env.getContext2d i) chartsConfig⟩ := by
  simp [chartsOnReady, getContext, h, he, hc, newChart]

theorem dashboardOnReady_present (env : Env) (w : World) (i : Nat) (e : Element)
    (h : getElementById w.doc "userGrowthChart" = some i) (he : w.doc[i]? = some e)
    (hc : e.tag = "canvas") :
    dashboardOnReady env w =
      match env.chartCtor (env.getContext2d i) dashboardConfig with
      | some err =>
        ⟨{ w with charts := w.charts ++ [⟨env.getContext2d i, dashboardConfig⟩] }, some err⟩
      | none =>
        match getElementById w.doc "refreshData" with
        | some b =>
          ⟨{ w with
              charts := w.charts ++ [⟨env.getContext2d i, dashboardConfig⟩]
              listeners := w.listeners ++ [⟨b, "click", Handler.refreshAlert⟩] }, none⟩
        | none =>
          ⟨{ w with charts := w.charts ++ [⟨env.getContext2d i, dashboardConfig⟩] }, none⟩ := by
  simp only [dashboardOnReady, getContext, h, he, hc, newChart, if_true]
  cases env.chartCtor (env.getContext2d i) dashboardConfig with
  | some err => rfl
  | none =>
    simp only
    cases getElementById w.doc "refreshData" <;> rfl

/-- C3, the code at a page without canvas: both page-ready listeners end with
the exception of reading `getContext` of `null`; no chart is drawn, and the
refresh button of the page is left without listener. -/
theorem ready_without_canvas_throws (env : Env) :
    getElementById noCanvasWorld.doc "myChart" = none ∧
    getElementById noCanvasWorld.doc "userGrowthChart" = none ∧
    chartsOnReady env noCanvasWorld = ⟨noCanvasWorld, some nullGetContext⟩ ∧
    dashboardOnReady env noCanvasWorld = ⟨noCanvasWorld, some nullGetContext⟩ ∧
    (chartsOnReady env noCanvasWorld).error ≠ none ∧
    (dashboardOnReady env noCanvasWorld).error ≠ none := by
  have h1 : getElementById noCanvasWorld.doc "myChart" = none := by decide
  have h2 : getElementById noCanvasWorld.doc "userGrowthChart" = none := by decide
  refine ⟨h1, h2, chartsOnReady_absent env _ h1, dashboardOnReady_absent env _ h2, ?_, ?_⟩
  · rw [chartsOnReady_absent env _ h1]; simp
  · rw [dashboardOnReady_absent env _ h2]; simp

/-- C6: on a page whose `myChart` (resp. `userGrowthChart`) element is a
canvas, one run of the page-ready listener of `charts.js` (resp.
`dashboard.js`) adds exactly one call of the chart constructor, with the
configuration literal of the script; that literal has kind `line`, the seven
month labels, a single series with the seven sample values, `responsive` and
`beginAtZero` set; when the element is absent no call is made. -/
theorem chart_constructed_once (env : Env) (w : World) :
    (∀ i e, getElementById w.doc "myChart" = some i → w.doc[i]? = some e →
      e.tag = "canvas" →
      (chartsOnReady env w).world.charts = w.charts ++ [⟨env.getContext2d i, chartsConfig⟩]) ∧
    (∀ i e, getElementById w.doc "userGrowthChart" = some i → w.doc[i]? = some e →
      e.tag = "canvas" →
      (dashboardOnReady env w).world.charts =
        w.charts ++ [⟨env.getContext2d i, dashboardConfig⟩]) ∧
    (getElementById w.doc "myChart" = none → (chartsOnReady env w).world.charts = w.charts) ∧
    (getElementById w.doc "userGrowthChart" = none →
      (dashboardOnReady env w).world.charts = w.charts) ∧
    (∀ cfg, cfg = chartsConfig ∨ cfg = dashboardConfig →
      cfg.type = "line" ∧
      cfg.data.labels = ["January", "February", "March", "April", "May", "June", "July"] ∧
      cfg.data.datasets.map (fun d => d.data) = [[65, 59, 80, 81, 56, 55, 40]] ∧
      (∀ d ∈ cfg.data.datasets, d.data.length = cfg.data.labels.length) ∧
      cfg.options.responsive = true ∧
      cfg.options.scalesYBeginAtZero = true) := by
  refine ⟨?_, ?_, ?_, ?_, ?_⟩
  · intro i e h he hc
    rw [chartsOnReady_present env w i e h he hc]
  · intro i e h he hc
    rw [dashboardOnReady_present env w i e h he hc]
    cases env.chartCtor (env.getContext2d i) dashboardConfig with
    | some err => rfl
    | none =>
      simp only
      cases getElementById w.doc "refreshData" <;> rfl
  · intro h
    rw [chartsOnReady_absent env w h]
  · intro h
    rw [dashboardOnReady_absent env w h]
  · intro cfg hcfg
    rcases hcfg with rfl | rfl
    · refine ⟨rfl, rfl, rfl, ?_, rfl, rfl⟩
      intro d hd
      simp only [chartsConfig, List.mem_singleton] at hd
      subst hd
      rfl
    · refine ⟨rfl, rfl, rfl, ?_, rfl, rfl⟩
      intro d hd
      simp only [dashboardConfig, dashboardData, List.mem_singleton] at hd
      subst hd
      rfl

/-- Instance of C6 on the dashboard page: each script calls the constructor
once. -/
theorem chart_constructed_once_witness :
    getElementById dashboardWorld.doc "myChart" = some 1 ∧
    getElementById dashboardWorld.doc "userGrowthChart" = some 2 ∧
    (chartsOnReady okEnv dashboardWorld).world.charts = [⟨some 1, chartsConfig⟩] ∧
    (dashboardOnReady okEnv dashboardWorld).world.charts = [⟨some 2, dashboardConfig⟩] :=
  ⟨by decide, by decide,
   (chart_constructed_once okEnv dashboardWorld).1 1 _ (by decide) rfl (by decide),
   (chart_constructed_once okEnv dashboardWorld).2.1 2 _ (by decide) rfl (by decide)⟩

/-! ## The refresh button -/

theorem clicks_refreshClick (w : World) (n : Nat) :
    clicks refreshClick n w =
      { w with alerts := w.alerts ++ List.replicate n "Data refreshed!" } := by
  induction n with
  | zero => simp [clicks]
  | succ n ih =>
    simp only [clicks]
    rw [ih]
    simp [refreshClick, List.replicate_succ']

/-- C7: every run of the refresh click listener returns without exception,
and after any number `n` of runs the page, the listeners and the recorded chart
calls (labels and series values included) are what they were; the only change
is `n` more alerts with the placeholder text. -/
theorem refresh_click_placeholder (w : World) (n : Nat) :
    (refreshClick (clicks refreshClick n w)).error = none ∧
    (clicks refreshClick n w).charts = w.charts ∧
    (clicks refreshClick n w).doc = w.doc ∧
    (clicks refreshClick n w).listeners = w.listeners ∧
    (clicks refreshClick n w).alerts = w.alerts ++ List.replicate n "Data refreshed!" ∧
    runHandler Handler.refreshAlert = refreshClick := by
  rw [clicks_refreshClick]
  exact ⟨rfl, rfl, rfl, rfl, rfl, rfl⟩

/-- C9: the page-ready listener of `dashboard.js` registers the refresh click
listener exactly when the `userGrowthChart` lookup yields a canvas, the chart
constructor returns without exception and the `refreshData` button exists; in
every other case, a missing canvas with the button present included, the
listeners are left as they were. -/
theorem dashboard_ready_wires_refresh (env : Env) (w : World) :
    ((∃ i e b, getElementById w.doc "userGrowthChart" = some i ∧ w.doc[i]? = some e ∧
        e.tag = "canvas" ∧ env.chartCtor (env.getContext2d i) dashboardConfig = none ∧
        getElementById w.doc "refreshData" = some b ∧
        (dashboardOnReady env w).world.listeners =
          w.listeners ++ [⟨b, "click", Handler.refreshAlert⟩] ∧
        (dashboardOnReady env w).world.charts =
          w.charts ++ [⟨env.getContext2d i, dashboardConfig⟩] ∧
        (dashboardOnReady env w).error = none) ∨
      ((dashboardOnReady env w).world.listeners = w.listeners ∧
        ¬ (∃ i e b, getElementById w.doc "userGrowthChart" = some i ∧ w.doc[i]? = some e ∧
          e.tag = "canvas" ∧ env.chartCtor (env.getContext2d i) dashboardConfig = none ∧
          getElementById w.doc "refreshData" = some b))) ∧
    (getElementById w.doc "userGrowthChart" = none →
      (dashboardOnReady env w).world.listeners = w.listeners ∧
      (dashboardOnReady env w).error ≠ none) := by
  constructor
  · cases h : getElementById w.doc "userGrowthChart" with
    | none =>
      right
      rw [dashboardOnReady_absent env w h]
      refine ⟨rfl, ?_⟩
      rintro ⟨i, e, b, hi, _⟩
      cases hi
    | some i =>
      obtain ⟨e, he, _⟩ := getElementById_getElem w.doc _ i h
      by_cases hc : e.tag = "canvas"
      · rw [dashboardOnReady_present env w i e h he hc]
        cases hk : env.chartCtor (env.getContext2d i) dashboardConfig with
        | some err =>
          right
          refine ⟨rfl, ?_⟩
          rintro ⟨i2, e2, b, hi2, _, _, hk2, _⟩
          cases hi2
          rw [hk] at hk2
          cases hk2
        | none =>
          cases hb : getElementById w.doc "refreshData" with
          | none =>
            right
            refine ⟨rfl, ?_⟩
            rintro ⟨i2, e2, b, _, _, _, _, hb2⟩
            cases hb2
          | some b =>
            left
            exact ⟨i, e, b, rfl, he, hc, hk, rfl, rfl, rfl, rfl⟩
      · right
        constructor
        · simp [dashboardOnReady, getContext, h, he, hc]
        · rintro ⟨i2, e2, b, hi2, he2, hc2, _⟩
          cases hi2
          rw [he] at he2
          cases he2
          exact hc hc2
  · intro h
    rw [dashboardOnReady_absent env w h]
    exact ⟨rfl, by simp⟩

/-- Instance of C9: with the button but no canvas nothing is registered, on
the full dashboard page the button gets its listener. -/
theorem dashboard_ready_wires_refresh_witness :
    getElementById noCanvasWorld.doc "userGrowthChart" = none ∧
    getElementById noCanvasWorld.doc "refreshData" = some 1 ∧
    (dashboardOnReady okEnv noCanvasWorld).world.listeners = [] ∧
    (dashboardOnReady okEnv dashboardWorld).world.listeners =
      [⟨3, "click", Handler.refreshAlert⟩] :=
  ⟨by decide, by decide,
   ((dashboard_ready_wires_refresh okEnv noCanvasWorld).2 (by decide)).1,
   by decide⟩

end RivalProject
